import Mathlib

/-!
# Hazard-report form (`frontend/js/report.js`): a shallow embedding

The closure state of the `DOMContentLoaded` callback of `report.js` and the
parts of the page it reads and writes are gathered in one record, `Page`;
every handler of the source becomes a function `Page → … → Page`.

Modelling conventions.

* A JavaScript number is `JSNum`: NaN, the two infinities, or a finite value
  carried as a rational. Every IEEE double is one of these and the order
  comparisons of doubles coincide with those of the values they denote, so a
  statement proved for every `JSNum` holds for every double (`+0` and `-0`
  are both `fin 0`; no function below tells them apart).
* Built-ins whose result depends on the engine (`parseFloat`, the
  Number-to-String conversion, the String-to-Number conversion, the
  constraint validation of the HTML form, the message of a `TypeError`) are
  fields of `Env` and stay abstract.
* An `async` handler is split at its `await`: the synchronous part up to the
  `fetch`, and the continuation, which receives the outcome of the request.
* Presentation effects without state of their own (CSS classes of single
  fields, focus, scrolling, console output, the marker popup, the button of
  the search control) are left out.
  The elements the script looks up once at load and dereferences without a
  guard (`hazardReportForm`, `reportStatus`, `latitude`, `longitude`,
  `locationName`, `mediaFiles`, `mediaPreview`, `severityValue`) are taken to
  exist.
* An alert element is recorded with its message, type and the delay of its
  removal timer; its generated `id` is not.
-/

namespace ReportJs

/-! ## JavaScript values -/

/-- A JavaScript Number. -/
inductive JSNum where
  | nan
  | negInf
  | fin (q : ℚ)
  | posInf
  deriving DecidableEq

namespace JSNum

/-- The JavaScript comparison `a <= b`: false as soon as one side is NaN. -/
def le : JSNum → JSNum → Bool
  | nan, _ => false
  | _, nan => false
  | negInf, _ => true
  | _, posInf => true
  | fin a, fin b => decide (a ≤ b)
  | fin _, negInf => false
  | posInf, negInf => false
  | posInf, fin _ => false

/-- The JavaScript comparison `a >= b`. -/
def ge (a b : JSNum) : Bool := le b a

/-- The JavaScript comparison `a > b`: false as soon as one side is NaN. -/
def gt : JSNum → JSNum → Bool
  | nan, _ => false
  | _, nan => false
  | negInf, _ => false
  | _, posInf => false
  | fin a, fin b => decide (b < a)
  | fin _, negInf => true
  | posInf, negInf => true
  | posInf, fin _ => true

/-- `Number.isNaN`. -/
def isNaN : JSNum → Bool
  | nan => true
  | _ => false

/-- Truthiness of a Number: NaN and zero are falsy. -/
def truthy : JSNum → Bool
  | nan => false
  | fin q => decide (q ≠ 0)
  | _ => true

end JSNum

/-- A value read from a parsed JSON body. Arrays and plain objects are not
taken apart by the script; such a value is carried with the string its
ToString conversion yields (`"[object Object]"` for a plain object, the
comma-joined elements for an array). -/
inductive JSVal where
  | undefined
  | null
  | bool (b : Bool)
  | num (n : JSNum)
  | str (s : String)
  | object (asString : String)
  deriving DecidableEq

/-- A file of the file picker: the three properties the script reads. -/
structure File where
  name : String
  size : Nat
  type : String
  deriving DecidableEq, Repr

/-- Modelled from the spec: the HTML page of the report form is not part of
the sources. Following the list of form fields in the specification, the
elements with ids `latitude`, `longitude`, `locationName` and
`weatherConditions` are controls of `hazardReportForm` named like their id
(the last one may be missing: the script guards it); `others` are the
remaining named controls (severity, user_id, description, …) with their
current values. -/
structure FormFields where
  latitude : String
  longitude : String
  locationName : String
  weatherConditions : Option String
  others : List (String × String)
  deriving DecidableEq

/-- What the script takes from the browser and the page. -/
structure Env where
  /-- The global `parseFloat`. -/
  parseFloat : String → JSNum
  /-- The conversion Number to String (`String(x)`, template literals). -/
  numberToString : JSNum → String
  /-- The conversion String to Number (used by `>` on a string operand). -/
  stringToNumber : String → JSNum
  /-- The constraint validation of the form, `reportForm.checkValidity()`. -/
  checkValidity : FormFields → List File → Bool
  /-- The effect of `reportForm.reset()` on the named controls. -/
  resetFields : FormFields → FormFields
  /-- The message of the TypeError thrown when the named property of `null`
  is read. -/
  nullPropertyMessage : String → String

namespace JSVal

/-- The conversion ToBoolean. -/
def truthy : JSVal → Bool
  | undefined => false
  | null => false
  | bool b => b
  | num n => n.truthy
  | str s => decide (s ≠ "")
  | object _ => true

/-- The conversion ToString (`String(v)`, a template literal hole). -/
def toStr (env : Env) : JSVal → String
  | undefined => "undefined"
  | null => "null"
  | bool true => "true"
  | bool false => "false"
  | num n => env.numberToString n
  | str s => s
  | object a => a

/-- The conversion ToNumber, as the relational operators apply it. -/
def toNum (env : Env) : JSVal → JSNum
  | undefined => .nan
  | null => .fin 0
  | bool true => .fin 1
  | bool false => .fin 0
  | num n => n
  | str s => env.stringToNumber s
  | object a => env.stringToNumber a

/-- The expression `a || b`. -/
def or (a b : JSVal) : JSVal := if a.truthy then a else b

end JSVal

/-! ## Constants of the script -/

def API_BASE_URL : String := "http://127.0.0.1:8001"

def MAX_FILE_SIZE : Nat := 10 * 1024 * 1024

def MAX_FILES : Nat := 5

/-! ## Helper functions of the script -/

/-- The function `isNearIndianCoast(lat, lon)`. -/
def isNearIndianCoast (lat lon : JSNum) : Bool :=
  let min_lat : JSNum := .fin 6
  let max_lat : JSNum := .fin 25
  let min_lon : JSNum := .fin 68
  let max_lon : JSNum := .fin 98
  lat.ge min_lat && lat.le max_lat && lon.ge min_lon && lon.le max_lon

/-- The method `String.prototype.startsWith`: the characters of `pre` are the
first characters of `s`. -/
def startsWith (s pre : String) : Bool :=
  pre.toList.isPrefixOf s.toList

/-- The method `String.prototype.replaceAll(c, by)` for a one-character
pattern. -/
def replaceAll (s : String) (c : Char) (by_ : String) : String :=
  String.mk (s.toList.flatMap (fun ch => if ch = c then by_.toList else [ch]))

/-- The function `escapeHtml(unsafe)`. -/
def escapeHtml (env : Env) (value : JSVal) : String :=
  match value with
  | .undefined => ""
  | .null => ""
  | v =>
    replaceAll (replaceAll (replaceAll (replaceAll (replaceAll (v.toStr env)
      '&' "&amp;") '<' "&lt;") '>' "&gt;") '"' "&quot;") (Char.ofNat 39) "&#039;"

/-- The digits of `n`, padded with zeros on the left to `width` characters. -/
def padZeros (width n : Nat) : String :=
  let d := toString n
  String.mk (List.replicate (width - d.length) '0') ++ d

/-- The method `Number.prototype.toFixed(f)`: the decimal with `f` fraction
digits nearest to the value, the larger one on a tie of the absolute value;
values of magnitude `10^21` and above fall back to the Number to String
conversion. -/
def toFixed (env : Env) (x : JSNum) (f : Nat) : String :=
  match x with
  | .nan => "NaN"
  | .posInf => "Infinity"
  | .negInf => "-Infinity"
  | .fin q =>
    let sign := if q < 0 then "-" else ""
    let a := |q|
    if (10 : ℚ) ^ 21 ≤ a then sign ++ env.numberToString (.fin a)
    else
      let n := (⌊a * 10 ^ f + 1 / 2⌋).toNat
      if f = 0 then sign ++ toString n
      else sign ++ toString (n / 10 ^ f) ++ "." ++ padZeros f (n % 10 ^ f)

/-! ## The page state -/

/-- A geographic position as Leaflet takes it, `[lat, lng]`. -/
structure LatLng where
  lat : JSNum
  lng : JSNum
  deriving DecidableEq

/-- The closure variable `marker`: `undefined` until `updateMarker` creates
the Leaflet marker, that marker object afterwards (its identity and its
position), `null` once `handleFormReset` has cleared it. -/
inductive MarkerVar where
  | undefined
  | null
  | object (id : Nat) (latlng : LatLng)
  deriving DecidableEq

/-- Truthiness of the variable `marker`. -/
def MarkerVar.truthy : MarkerVar → Bool
  | .object _ _ => true
  | _ => false

/-- The Leaflet map held by the variable `map`: its view and the marker
layers that have been added to it, by identity. -/
structure MapWidget where
  center : LatLng
  zoom : Nat
  markerLayers : List Nat
  deriving DecidableEq

/-- The data of a successful weather response, `currentWeatherData`: the
properties `renderWeatherData` reads and the text `JSON.stringify` gives. -/
structure WeatherData where
  temperature : JSVal
  wind_speed : JSVal
  humidity : JSVal
  wave_height : JSVal
  visibility : JSVal
  weather_description : JSVal
  serialized : String
  deriving DecidableEq

/-- What the element `weatherData` shows. -/
inductive WeatherPanel where
  | initial
  | loading
  | conditions (data : WeatherData)
  | unavailable
  | selectLocation
  deriving DecidableEq

/-- An alert element inserted by `showAlert`; `timeout` is the delay of its
removal timer (0: none). -/
structure Alert where
  message : String
  type : String
  timeout : Nat
  deriving DecidableEq, Repr

/-- A child of the status panel `reportStatus`: an alert element, or markup
assigned through `innerHTML`. -/
inductive StatusNode where
  | alert (a : Alert)
  | markup (html : String)
  deriving DecidableEq, Repr

/-- The submit button of the form: the two properties the script writes. -/
structure Button where
  disabled : Bool
  innerHTML : String
  deriving DecidableEq, Repr

/-- The element `severityValue`. -/
structure SeverityBadge where
  textContent : String
  background : Option String
  deriving DecidableEq, Repr

/-- A value of a `FormData` entry. -/
inductive FormValue where
  | text (value : String)
  | file (f : File)
  deriving DecidableEq, Repr

/-- A call of `fetch`. -/
structure Request where
  method : String
  url : String
  body : List (String × FormValue)
  deriving DecidableEq, Repr

/-- What a `setTimeout` of `handleFormSubmit` runs. -/
inductive TimerAction where
  | formReset
  deriving DecidableEq, Repr

/-- A call of `setTimeout`. -/
structure Timer where
  delay : Nat
  action : TimerAction
  deriving DecidableEq, Repr

/-- The state of the report page: the closure variables of the script
(`map`, `marker`, `selectedFiles`, `currentWeatherData`), the parts of the
document it reads and writes, and the requests and timers it has started. -/
structure Page where
  /-- The named controls of `hazardReportForm`. -/
  form : FormFields
  /-- Whether the form carries the class `was-validated`. -/
  wasValidated : Bool
  /-- The file list of the input `mediaFiles`, `mediaInput.files`. -/
  mediaInputFiles : List File
  selectedFiles : List File
  /-- The children of `mediaPreview`, each by its `data-filename`. -/
  mediaPreview : List String
  /-- The files whose `FileReader` has been started and has not loaded yet. -/
  pendingReaders : List File
  /-- The markup of the element `.file-input-label`, when the page has one. -/
  mediaLabel : Option String
  map : Option MapWidget
  marker : MarkerVar
  /-- The identity the next Leaflet layer gets. -/
  nextLayerId : Nat
  currentWeatherData : Option WeatherData
  /-- The element `weatherData`, when the page has one. -/
  weatherDiv : Option WeatherPanel
  /-- The children of `reportStatus`, first child first. -/
  statusDiv : List StatusNode
  /-- The button `button[type="submit"]` of the form, when it has one. -/
  submitBtn : Option Button
  severityValue : SeverityBadge
  /-- The calls of `fetch` so far, oldest first. -/
  requests : List Request
  /-- The calls of `setTimeout` by `handleFormSubmit` so far, oldest first
  (the removal timer of an alert is recorded in the alert). -/
  timers : List Timer
  /-- The button `getCurrentLocationBtn`, when the page has one. -/
  locationBtn : Option Button

/-- The function `showAlert(message, type = 'info', timeout = 5000)`: the
alert element becomes the first child of the status panel. -/
def showAlert (s : Page) (message : String) (type : String) (timeout : Nat) : Page :=
  { s with statusDiv := .alert ⟨message, type, timeout⟩ :: s.statusDiv }

/-! ## Media handling -/

/-- The function `createMediaPreview(file)`: a reader is started; the preview
element is appended when it has loaded (`readerLoaded`). -/
def createMediaPreview (s : Page) (file : File) : Page :=
  { s with pendingReaders := s.pendingReaders ++ [file] }

/-- The `onload` callback of the reader started for `file`: the preview
element of the file becomes the last child of `mediaPreview`. -/
def readerLoaded (s : Page) (file : File) : Page :=
  { s with
    pendingReaders := s.pendingReaders.erase file,
    mediaPreview := s.mediaPreview ++ [file.name] }

/-- The function `updateFileInput()`. -/
def updateFileInput (s : Page) : Page :=
  { s with mediaInputFiles := s.selectedFiles }

/-- The function `updateMediaLabel()`. -/
def updateMediaLabel (s : Page) : Page :=
  match s.mediaLabel with
  | none => s
  | some _ =>
    let n := s.selectedFiles.length
    let label :=
      if n = 0 then "<i class=\"fas fa-upload\"></i> Click to upload images and videos"
      else "<i class=\"fas fa-check\"></i> " ++ toString n ++ " file"
        ++ (if n > 1 then "s" else "") ++ " selected"
    { s with mediaLabel := some label }

/-- The body of the `files.forEach` callback of `handleMediaSelection`. -/
def processFile (s : Page) (file : File) : Page :=
  if file.size > MAX_FILE_SIZE then
    showAlert s (file.name ++ " is too large (maximum 10MB allowed)") "warning" 5000
  else if !startsWith file.type "image/" && !startsWith file.type "video/" then
    showAlert s (file.name ++ " is not a valid image or video file") "warning" 5000
  else if s.selectedFiles.any (fun f => f.name == file.name && f.size == file.size) then
    showAlert s (file.name ++ " is already added") "warning" 5000
  else
    createMediaPreview { s with selectedFiles := s.selectedFiles ++ [file] } file

/-- The function `handleMediaSelection(e)`; `files` is `e.target.files`. -/
def handleMediaSelection (s : Page) (files : List File) : Page :=
  if files.length = 0 then s
  else if s.selectedFiles.length + files.length > MAX_FILES then
    showAlert s ("Maximum " ++ toString MAX_FILES
      ++ " files allowed. Please remove some files before adding more.") "warning" 5000
  else
    updateMediaLabel (updateFileInput (files.foldl processFile s))

/-- A `change` event of the input `mediaFiles`: the browser has replaced the
file list of the input by the files just picked, and `handleMediaSelection`
runs with the input as the target of the event. -/
def mediaInputChange (s : Page) (picked : List File) : Page :=
  handleMediaSelection { s with mediaInputFiles := picked } picked

/-- The first element of the preview strip whose `data-filename` is
`fileName` is removed (`querySelector` returns the first match only). The
name is taken to be free of the characters a CSS string needs escaped (the
double quote, the backslash, line breaks). -/
def removePreview (previews : List String) (fileName : String) : List String :=
  previews.erase fileName

/-- The function `removeMedia(fileName)`. -/
def removeMedia (s : Page) (fileName : String) : Page :=
  let s := { s with selectedFiles := s.selectedFiles.filter (fun f => f.name != fileName) }
  let s := updateFileInput s
  let s := updateMediaLabel s
  let s := { s with mediaPreview := removePreview s.mediaPreview fileName }
  showAlert s "File removed successfully" "info" 2000

/-! ## Map, marker and weather -/

/-- The function `updateMarker(lat, lng)`. -/
def updateMarker (s : Page) (lat lng : JSNum) : Page :=
  match s.map with
  | none => s
  | some m =>
    match s.marker with
    | .object id _ => { s with marker := .object id ⟨lat, lng⟩ }
    | _ =>
      { s with
        marker := .object s.nextLayerId ⟨lat, lng⟩,
        map := some { m with markerLayers := m.markerLayers ++ [s.nextLayerId] },
        nextLayerId := s.nextLayerId + 1 }

/-- The function `reverseGeocode(lat, lng)` up to its `fetch`. -/
def reverseGeocodeBegin (env : Env) (s : Page) (lat lng : JSNum) : Page :=
  { s with requests := s.requests ++
      [⟨"GET", "https://nominatim.openstreetmap.org/reverse?format=json&lat="
        ++ env.numberToString lat ++ "&lon=" ++ env.numberToString lng
        ++ "&addressdetails=1", []⟩] }

/-- The function `fetchWeatherData(lat, lng)` up to its `fetch`. -/
def fetchWeatherDataBegin (env : Env) (s : Page) (lat lng : JSNum) : Page :=
  match s.weatherDiv with
  | none => s
  | some _ =>
    { s with
      weatherDiv := some .loading,
      requests := s.requests ++
        [⟨"GET", API_BASE_URL ++ "/api/weather?lat=" ++ env.numberToString lat
          ++ "&lon=" ++ env.numberToString lng, []⟩] }

/-- The function `handleMapClick(e)`; `lat` and `lng` are `e.latlng.lat` and
`e.latlng.lng`. -/
def handleMapClick (env : Env) (s : Page) (lat lng : JSNum) : Page :=
  let s := updateMarker s lat lng
  let s := { s with form :=
    { s.form with latitude := toFixed env lat 6, longitude := toFixed env lng 6 } }
  let s := reverseGeocodeBegin env s lat lng
  let s := fetchWeatherDataBegin env s lat lng
  showAlert s "Location selected successfully" "success" 2000

/-- The table `severityLabels` of `updateSeverityDisplay`. -/
def severityLabels : Nat → Option (String × String)
  | 1 => some ("1 - Low", "#10b981")
  | 2 => some ("2 - Mild", "#3b82f6")
  | 3 => some ("3 - Moderate", "#f59e0b")
  | 4 => some ("4 - High", "#ef4444")
  | 5 => some ("5 - Critical", "#dc2626")
  | _ => none

/-- The function `updateSeverityDisplay(value)` for a number `value`. -/
def updateSeverityDisplay (s : Page) (value : Nat) : Page :=
  match severityLabels value with
  | some config => { s with severityValue := ⟨config.1, some config.2⟩ }
  | none => { s with severityValue := { s.severityValue with textContent := toString value } }

/-- The view `initializeMap` and `handleFormReset` set: the doubles written
`20.5937` and `78.9629`, and zoom 5. -/
def defaultCenter : LatLng :=
  ⟨.fin (1449152806971559 / 70368744177664), .fin (5556520109626465 / 70368744177664)⟩

/-- The function `handleFormReset()`. The `reset` event that
`reportForm.reset()` fires when the function is called from the timer runs the
same body once more before the fields are reset, the nested `reset()` being
ignored by the browser; every assignment below is idempotent, so the state
reached is the one of a single pass. -/
def handleFormReset (env : Env) (s : Page) : Page :=
  let s := { s with form := env.resetFields s.form, mediaInputFiles := [],
                    wasValidated := false }
  let s := updateSeverityDisplay s 3
  let s := { s with selectedFiles := [], mediaPreview := [] }
  let s := updateMediaLabel s
  let s :=
    match s.marker, s.map with
    | .object id _, some m =>
      { s with map := some { m with markerLayers := m.markerLayers.filter (fun l => l != id) },
               marker := .null }
    | _, _ => s
  let s := { s with weatherDiv := s.weatherDiv.map (fun _ => .selectLocation) }
  let s := { s with statusDiv := [] }
  let s := { s with map := s.map.map (fun (m : MapWidget) => { m with center := defaultCenter, zoom := 5 }) }
  let s := { s with currentWeatherData := none }
  showAlert s "Form reset successfully" "info" 2000

/-! ## Submission -/

/-- The entry list `new FormData(reportForm)` builds: the named controls, and
for the file input one entry per selected file, or one entry with an empty
file when none is selected. The order of the entries is the order of the
controls in the page; nothing below depends on it. -/
def formDataOf (form : FormFields) (files : List File) : List (String × FormValue) :=
  [("latitude", .text form.latitude), ("longitude", .text form.longitude),
    ("locationName", .text form.locationName)]
  ++ (match form.weatherConditions with
      | some w => [("weatherConditions", .text w)]
      | none => [])
  ++ form.others.map (fun p => (p.1, .text p.2))
  ++ (if files.isEmpty then [("mediaFiles", .file ⟨"", 0, "application/octet-stream"⟩)]
      else files.map (fun f => ("mediaFiles", .file f)))

/-- The method `FormData.get(name)`: the first value of that name, if any. -/
def formDataGet (name : String) (entries : List (String × FormValue)) : Option FormValue :=
  (entries.find? (fun e => e.1 == name)).map (fun e => e.2)

/-- The method `FormData.set(name, value)`: the first entry of that name is
replaced and the others of that name are removed; without such an entry the
new one is appended. -/
def formDataSet (name : String) (v : FormValue) :
    List (String × FormValue) → List (String × FormValue)
  | [] => [(name, v)]
  | e :: es =>
    if e.1 = name then (name, v) :: es.filter (fun x => x.1 != name)
    else e :: formDataSet name v es

/-- The multipart body of the submission: the form data, with `user_id` set
to `'anonymous_' + Date.now()` when `formData.get('user_id')` is falsy. -/
def submitBody (s : Page) (now : Nat) : List (String × FormValue) :=
  let formData := formDataOf s.form s.mediaInputFiles
  match formDataGet "user_id" formData with
  | some (.file _) => formData
  | some (.text v) =>
    if v = "" then formDataSet "user_id" (.text ("anonymous_" ++ toString now)) formData
    else formData
  | none => formDataSet "user_id" (.text ("anonymous_" ++ toString now)) formData

/-- The request `handleFormSubmit` sends. -/
def submitRequest (s : Page) (now : Nat) : Request :=
  ⟨"POST", API_BASE_URL ++ "/api/reports/submit", submitBody s now⟩

/-- The properties of a parsed JSON body that `handleFormSubmit` reads;
a property the body lacks is `undefined`. -/
structure ResponseProps where
  report_id : JSVal
  priority_score : JSVal
  nearby_reports_count : JSVal
  message : JSVal
  detail : JSVal
  deriving DecidableEq

/-- The object `{}`: every property is `undefined`. -/
def emptyObject : ResponseProps :=
  ⟨.undefined, .undefined, .undefined, .undefined, .undefined⟩

/-- The outcome of `response.json()`: a rejection with the message of its
error, or the parsed value (`none`: the JSON value `null`). -/
inductive BodyJson (α : Type) where
  | syntaxError (message : String)
  | parsed (value : Option α)

/-- The outcome of a `fetch`: a rejection with the message of its error, or a
response with its `ok` flag and body. -/
inductive FetchResult (α : Type) where
  | rejected (message : String)
  | response (ok : Bool) (json : BodyJson α)

/-- The success markup of `handleFormSubmit` up to the hole of the report id. -/
def successPanelHead : String :=
  "\n                    <div class=\"alert alert-success\">"
  ++ "\n                        <h5><i class=\"fas fa-check-circle\"></i> Report Submitted Successfully!</h5>"
  ++ "\n                        <div style=\"margin-top: 12px;\">"
  ++ "\n                            <p><strong>Report ID:</strong> "

/-- The success markup of `handleFormSubmit` after the hole of the report id. -/
def successPanelTail (env : Env) (data : ResponseProps) : String :=
  "</p>"
  ++ "\n                            <p><strong>Priority Score:</strong> "
  ++ escapeHtml env (.str ((data.priority_score.or (.str "Calculating...")).toStr env))
  ++ "</p>"
  ++ "\n                            "
  ++ (if (data.nearby_reports_count.toNum env).gt (.fin 0) then
        "<p><strong>Similar Reports:</strong> " ++ data.nearby_reports_count.toStr env
          ++ " reports found in nearby areas</p>"
      else "")
  ++ "\n                            <p style=\"margin-top: 12px; font-size: 14px; color: var(--success-color);\">"
  ++ "\n                                <i class=\"fas fa-info-circle\"></i> "
  ++ (data.message.or
        (.str "Your report has been received and will be processed by our team.")).toStr env
  ++ "\n                            </p>"
  ++ "\n                        </div>"
  ++ "\n                    </div>"
  ++ "\n                "

/-- The markup `handleFormSubmit` assigns to the status panel after an OK
response with the parsed body `data`. -/
def successPanel (env : Env) (data : ResponseProps) : String :=
  successPanelHead ++ escapeHtml env data.report_id ++ successPanelTail env data

/-- The function `handleFormSubmit(e)` up to the `await` of its `fetch`, at
time `now`: the page left behind, and the original label of the submit button
when the request has been sent (`none`: the handler has returned). -/
def handleFormSubmitBegin (env : Env) (s : Page) (now : Nat) : Page × Option String :=
  if !env.checkValidity s.form s.mediaInputFiles then
    (showAlert { s with wasValidated := true }
      "Please fill in all required fields correctly" "warning" 5000, none)
  else if !s.marker.truthy || s.form.latitude == "" || s.form.longitude == "" then
    (showAlert s "Please select a location on the map" "warning" 5000, none)
  else
    let lat := env.parseFloat s.form.latitude
    let lng := env.parseFloat s.form.longitude
    if lat.isNaN || lng.isNaN || !isNearIndianCoast lat lng then
      (showAlert s "Please select a valid location near the Indian coastline" "warning" 5000,
        none)
    else
      let request := submitRequest s now
      let originalBtnText :=
        match s.submitBtn with
        | some b => b.innerHTML
        | none => ""
      let s := { s with submitBtn := s.submitBtn.map (fun _ =>
        (⟨true, "<i class=\"fas fa-spinner fa-spin\"></i> Submitting report..."⟩ : Button)) }
      ({ s with requests := s.requests ++ [request] }, some originalBtnText)

/-- The `catch` block of `handleFormSubmit` for an error with that message. -/
def submissionFailed (s : Page) (message : String) : Page :=
  showAlert s ("Submission failed: " ++ message) "danger" 5000

/-- The function `handleFormSubmit(e)` from the point where its `fetch` has
settled with `result`: the `try` block after the `await`, the `catch` block
and the `finally` block. -/
def handleFormSubmitEnd (env : Env) (s : Page) (originalBtnText : String)
    (result : FetchResult ResponseProps) : Page :=
  let s :=
    match result with
    | .rejected message => submissionFailed s message
    | .response true (.syntaxError message) => submissionFailed s message
    | .response true (.parsed none) =>
      submissionFailed (showAlert s "Report submitted successfully!" "success" 5000)
        (env.nullPropertyMessage "report_id")
    | .response true (.parsed (some data)) =>
      let s := showAlert s "Report submitted successfully!" "success" 5000
      let s := { s with statusDiv := [.markup (successPanel env data)] }
      { s with timers := s.timers ++ [(⟨3000, .formReset⟩ : Timer)] }
    | .response false json =>
      let errorData : Option ResponseProps :=
        match json with
        | .syntaxError _ => some emptyObject
        | .parsed value => value
      match errorData with
      | none => submissionFailed s (env.nullPropertyMessage "detail")
      | some errorData =>
        let errorMsg :=
          errorData.detail.or (errorData.message.or (.str "Failed to submit report"))
        submissionFailed s (errorMsg.toStr env)
  { s with submitBtn := s.submitBtn.map (fun _ => (⟨false, originalBtnText⟩ : Button)) }

/-- The function `handleFormSubmit(e)` run to completion: called at time
`now`, its request (if one is sent) settling with `result`. -/
def handleFormSubmit (env : Env) (s : Page) (now : Nat)
    (result : FetchResult ResponseProps) : Page :=
  match handleFormSubmitBegin env s now with
  | (s, none) => s
  | (s, some originalBtnText) => handleFormSubmitEnd env s originalBtnText result

/-- A timer of the form handlers fires. -/
def runTimer (env : Env) (s : Page) : TimerAction → Page
  | .formReset => handleFormReset env s

/-! ## Weather, after the request -/

/-- How a call of an `async` function ends. -/
inductive Completion where
  | resolved
  | rejected (message : String)
  deriving DecidableEq, Repr

/-- The markup `fetchWeatherData` shows while the request is under way. -/
def loadingMarkup : String :=
  "\n            <div class=\"loading\">"
  ++ "\n                <i class=\"fas fa-spinner spinner\"></i>"
  ++ "\n                Fetching current weather conditions..."
  ++ "\n            </div>"
  ++ "\n        "

/-- The markup the `catch` block of `fetchWeatherData` shows. -/
def unavailableMarkup : String :=
  ("\n                <div style=\"text-align: center; color: var(--text-muted);\">"
    ++ "\n                    <i class=\"fas fa-exclamation-triangle\"></i>"
    ++ "\n                    ")
  ++ "Weather data temporarily unavailable"
  ++ ("\n                </div>"
    ++ "\n            ")

/-- The markup `handleFormReset` shows in the weather element. -/
def selectLocationMarkup : String :=
  "\n                <div style=\"text-align: center; color: var(--text-muted);\">"
  ++ "\n                    <i class=\"fas fa-info-circle\"></i>"
  ++ "\n                    Select a location to view weather conditions"
  ++ "\n                </div>"
  ++ "\n            "

/-- One cell of the grid of `renderWeatherData`. -/
def weatherItem (icon label value : String) : String :=
  "\n                <div class=\"weather-item\">"
  ++ "\n                    <div><i class=\"fas fa-" ++ icon ++ "\"></i> " ++ label ++ "</div>"
  ++ "\n                    <strong>" ++ value ++ "</strong>"
  ++ "\n                </div>"

/-- The markup `renderWeatherData(data)` shows. -/
def conditionsMarkup (env : Env) (data : WeatherData) : String :=
  "\n            <div class=\"weather-data-grid\">"
  ++ weatherItem "thermometer-half" "Temperature"
      ((data.temperature.or (.str "N/A")).toStr env ++ "°C")
  ++ weatherItem "wind" "Wind Speed" ((data.wind_speed.or (.str "N/A")).toStr env ++ " m/s")
  ++ weatherItem "tint" "Humidity" ((data.humidity.or (.str "N/A")).toStr env ++ "%")
  ++ weatherItem "water" "Wave Height"
      (if data.wave_height.truthy then data.wave_height.toStr env ++ "m" else "N/A")
  ++ weatherItem "eye" "Visibility" ((data.visibility.or (.str "N/A")).toStr env ++ " km")
  ++ weatherItem "cloud" "Conditions" ((data.weather_description.or (.str "N/A")).toStr env)
  ++ "\n            </div>"
  ++ "\n        "

/-- The `innerHTML` the script has given the weather element (`none`: the
markup of the page as loaded, which the script has not written). -/
def WeatherPanel.markup (env : Env) : WeatherPanel → Option String
  | .initial => none
  | .loading => some loadingMarkup
  | .conditions data => some (conditionsMarkup env data)
  | .unavailable => some unavailableMarkup
  | .selectLocation => some selectLocationMarkup

/-- The function `renderWeatherData(data)` for a body that is not `null`. -/
def renderWeatherData (s : Page) (data : WeatherData) : Page :=
  match s.weatherDiv with
  | none => s
  | some _ => { s with weatherDiv := some (.conditions data) }

/-- The `try` block of `fetchWeatherData` from the point where its `fetch`
has settled with `result`: the page at the end of the block or at the `throw`,
and the message of the error thrown (`none`: the block ran to its end). -/
def fetchWeatherDataTry (env : Env) (s : Page) (result : FetchResult WeatherData) :
    Page × Option String :=
  match result with
  | .rejected message => (s, some message)
  | .response false _ => (s, some "Weather service temporarily unavailable")
  | .response true (.syntaxError message) => (s, some message)
  | .response true (.parsed none) =>
    let s := { s with currentWeatherData := none }
    match s.weatherDiv with
    | some _ => (s, some (env.nullPropertyMessage "temperature"))
    | none =>
      ({ s with form :=
          { s.form with weatherConditions := s.form.weatherConditions.map (fun _ => "null") } },
        none)
  | .response true (.parsed (some data)) =>
    let s := { s with currentWeatherData := some data }
    let s := renderWeatherData s data
    ({ s with form :=
        { s.form with
          weatherConditions := s.form.weatherConditions.map (fun _ => data.serialized) } },
      none)

/-- The `catch` block of `fetchWeatherData`. -/
def fetchWeatherDataCatch (s : Page) : Page :=
  { s with
    weatherDiv := s.weatherDiv.map (fun _ => WeatherPanel.unavailable),
    currentWeatherData := none }

/-- The function `fetchWeatherData(lat, lng)` from the point where its `fetch`
has settled with `result`: the page left behind and how the promise of the
call ends. -/
def fetchWeatherDataEnd (env : Env) (s : Page) (result : FetchResult WeatherData) :
    Page × Completion :=
  match fetchWeatherDataTry env s result with
  | (s, none) => (s, .resolved)
  | (s, some _) => (fetchWeatherDataCatch s, .resolved)

/-- The function `fetchWeatherData(lat, lng)` run to completion, its request
(if one is sent) settling with `result`. -/
def fetchWeatherData (env : Env) (s : Page) (lat lng : JSNum)
    (result : FetchResult WeatherData) : Page × Completion :=
  match s.weatherDiv with
  | none => (s, .resolved)
  | some _ => fetchWeatherDataEnd env (fetchWeatherDataBegin env s lat lng) result

/-! ## Device location, search and prefilled coordinates -/

/-- The method `map.setView([lat, lng], zoom)`. -/
def setView (s : Page) (lat lng : JSNum) (zoom : Nat) : Page :=
  { s with map := s.map.map (fun (m : MapWidget) => { m with center := ⟨lat, lng⟩, zoom := zoom }) }

/-- The click handler of `getCurrentLocationBtn` up to the call of
`getCurrentPosition`: the page left behind and the label saved in
`originalText` (`none`: the handler has returned, or the page has no such
button and so no handler). -/
def getCurrentLocationClick (s : Page) (geolocationSupported : Bool) : Page × Option String :=
  match s.locationBtn with
  | none => (s, none)
  | some b =>
    if !geolocationSupported then
      (showAlert s "Geolocation is not supported by your browser" "warning" 5000, none)
    else
      let busy : Button :=
        ⟨true, "<i class=\"fas fa-spinner fa-spin\"></i> Getting location..."⟩
      ({ s with locationBtn := some busy }, some b.innerHTML)

/-- The success callback of `getCurrentPosition` for the position
`(lat, lng)`, up to its `await`: the page left behind, and whether the
callback goes on to wait for the geocoding and weather requests (`false`: the
position was rejected and the callback has returned). -/
def geolocationSuccessBegin (env : Env) (s : Page) (originalText : String)
    (lat lng : JSNum) : Page × Bool :=
  if !isNearIndianCoast lat lng then
    let s := showAlert s
      "Please select a location near the Indian coastline for ocean hazard reporting"
      "warning" 5000
    ({ s with locationBtn := s.locationBtn.map (fun _ => (⟨false, originalText⟩ : Button)) },
      false)
  else
    let s := setView s lat lng 13
    let s := updateMarker s lat lng
    let s := { s with form :=
      { s.form with latitude := toFixed env lat 6, longitude := toFixed env lng 6 } }
    let s := reverseGeocodeBegin env s lat lng
    let s := fetchWeatherDataBegin env s lat lng
    (s, true)

/-- The success callback of `getCurrentPosition` after its `await`. -/
def geolocationSuccessEnd (s : Page) (originalText : String) : Page :=
  let s := showAlert s "Current location retrieved successfully" "success" 5000
  { s with locationBtn := s.locationBtn.map (fun _ => (⟨false, originalText⟩ : Button)) }

/-- The `code` of a `GeolocationPositionError`. -/
inductive PositionErrorCode where
  | permissionDenied
  | timeout
  | positionUnavailable
  | other
  deriving DecidableEq, Repr

/-- The error callback of `getCurrentPosition`. -/
def geolocationError (s : Page) (originalText : String) (code : PositionErrorCode) : Page :=
  let message :=
    match code with
    | .permissionDenied =>
      "Location access denied. Please enable location services and try again."
    | .timeout =>
      "Location request timed out. Please try again or select location manually on the map."
    | .positionUnavailable =>
      "Location information unavailable. Please select location manually on the map."
    | .other => "Unable to retrieve your current location."
  let s := showAlert s message "danger" 5000
  { s with locationBtn := s.locationBtn.map (fun _ => (⟨false, originalText⟩ : Button)) }

/-- The first hit of a search response: the properties `searchLocation` reads,
`lat` and `lon` as strings, `display_name` when it is a string. -/
structure SearchHit where
  lat : String
  lon : String
  display_name : Option String
  deriving DecidableEq, Repr

/-- The expression `name.split(',')[0]`. -/
def firstSegment (name : String) : String :=
  String.mk (name.toList.takeWhile (fun c => c != ','))

/-- The function `searchLocation()` from the parsed response on, up to its
`await` of the weather request or up to its `catch` block; `hit` is `data[0]`
(`none`: no result). Leaflet refuses a position with a NaN coordinate by
throwing, as does reading `split` of a name that is no string; the `catch`
block shows the same alert for both. -/
def searchLocationFound (env : Env) (s : Page) (hit : Option SearchHit) : Page :=
  match hit with
  | none =>
    showAlert s "Location not found. Try searching with more specific terms." "warning" 5000
  | some result =>
    let lat := env.parseFloat result.lat
    let lon := env.parseFloat result.lon
    if s.map.isNone || lat.isNaN || lon.isNaN then
      showAlert s "Error searching location. Please try again." "danger" 5000
    else
      let s := setView s lat lon 13
      let s := updateMarker s lat lon
      let s := { s with form :=
        { s.form with latitude := toFixed env lat 6, longitude := toFixed env lon 6 } }
      match result.display_name with
      | none => showAlert s "Error searching location. Please try again." "danger" 5000
      | some name =>
        let s := { s with form := { s.form with locationName := firstSegment name } }
        fetchWeatherDataBegin env s lat lon

/-- The function `searchLocation()` after its `await` of the weather request. -/
def searchLocationEnd (s : Page) : Page :=
  showAlert s "Location found and selected" "success" 5000

/-- The function `reverseGeocode(lat, lng)` from the point where its `fetch`
has settled; `locationName` is the name the function computes from the
response (`none`: the request failed or the body has no `display_name`, and
nothing is written). -/
def reverseGeocodeEnd (s : Page) (locationName : Option String) : Page :=
  match locationName with
  | none => s
  | some name => { s with form := { s.form with locationName := name } }

/-- The function `initializeMap()` on a page whose variable `map` is still
undefined: without the map element or Leaflet it returns; otherwise the map is
created at the default view and, when the latitude and longitude fields are
prefilled with numbers, the view and the marker are set from them and the
weather is requested. -/
def initializeMap (env : Env) (s : Page) (leafletAvailable : Bool) : Page :=
  if !leafletAvailable then s
  else
    let s := { s with map := some ⟨defaultCenter, 5, []⟩ }
    let preLat := if s.form.latitude = "" then JSNum.nan else env.parseFloat s.form.latitude
    let preLng := if s.form.longitude = "" then JSNum.nan else env.parseFloat s.form.longitude
    if !preLat.isNaN && !preLng.isNaN then
      let s := setView s preLat preLng 13
      let s := updateMarker s preLat preLng
      fetchWeatherDataBegin env s preLat preLng
    else s

end ReportJs

/-! # Global utilities (`frontend/js/main.js`)

The two validators of `OceanGuardianUtils` test a string against a regular
expression without flags, anchored at both ends: the test is true exactly when
the whole string belongs to the language of the expression. The expressions
tell characters apart only by class (white space, `@`, `.`, anything else; or
`+`, digit, anything else), so a string is read as its sequence of classes and
matched with the derivative matcher `RegularExpression.rmatch`. A character is
one `Char` here. -/

namespace MainJs

open RegularExpression

/-- The characters the class `\s` of a JavaScript regular expression matches:
the white space and line terminator code points. -/
def isWhiteSpace (c : Char) : Bool :=
  c.toNat = 0x09 || c.toNat = 0x0A || c.toNat = 0x0B || c.toNat = 0x0C || c.toNat = 0x0D
  || c.toNat = 0x20 || c.toNat = 0xA0 || c.toNat = 0x1680
  || (0x2000 ≤ c.toNat && c.toNat ≤ 0x200A)
  || c.toNat = 0x2028 || c.toNat = 0x2029 || c.toNat = 0x202F || c.toNat = 0x205F
  || c.toNat = 0x3000 || c.toNat = 0xFEFF

/-- The expression `P+`. -/
def oneOrMore {α : Type} (P : RegularExpression α) : RegularExpression α := P * star P

/-- The expression `P?`. -/
def optional {α : Type} (P : RegularExpression α) : RegularExpression α := 1 + P

/-- The classes of characters `emailRegex` tells apart. -/
inductive EmailClass where
  | space
  | at
  | dot
  | other
  deriving DecidableEq, Repr

/-- The class of a character for `emailRegex`. -/
def emailClass (c : Char) : EmailClass :=
  if isWhiteSpace c then .space
  else if c = '@' then .at
  else if c = '.' then .dot
  else .other

/-- The character class `[^\s@]`. -/
def notSpaceAt : RegularExpression EmailClass := char .dot + char .other

/-- The expression `/^[^\s@]+@[^\s@]+\.[^\s@]+$/`. -/
def emailRegex : RegularExpression EmailClass :=
  oneOrMore notSpaceAt * (char .at * (oneOrMore notSpaceAt * (char .dot * oneOrMore notSpaceAt)))

/-- The function `OceanGuardianUtils.isValidEmail(email)` for a string. -/
def isValidEmail (email : String) : Bool :=
  emailRegex.rmatch (email.toList.map emailClass)

/-- The classes of characters `phoneRegex` tells apart. -/
inductive PhoneClass where
  | plus
  | digit
  | other
  deriving DecidableEq, Repr

/-- The class of a character for `phoneRegex`. -/
def phoneClass (c : Char) : PhoneClass :=
  if c = '+' then .plus
  else if c.isDigit then .digit
  else .other

/-- The expression `/^[+]?[0-9]{10,15}$/`: ten digits, then up to five more. -/
def phoneRegex : RegularExpression PhoneClass :=
  optional (char .plus) * (char .digit ^ 10 * optional (char .digit) ^ 5)

/-- The expression `phone.replace(re, '')`, `re` being the global expression
for one white space character or one hyphen, as a list of characters. -/
def stripSpacesAndHyphens (phone : String) : List Char :=
  phone.toList.filter (fun c => !(isWhiteSpace c || c == '-'))

/-- The function `OceanGuardianUtils.isValidPhone(phone)` for a string. -/
def isValidPhone (phone : String) : Bool :=
  phoneRegex.rmatch ((stripSpacesAndHyphens phone).map phoneClass)

/-- The function `window.escapeHtml(unsafe)` that `initializeGlobalComponents`
installs when the page has none yet. -/
def escapeHtml (env : ReportJs.Env) (value : ReportJs.JSVal) : String :=
  match value with
  | .undefined => ""
  | .null => ""
  | v =>
    ReportJs.replaceAll (ReportJs.replaceAll (ReportJs.replaceAll (ReportJs.replaceAll
      (ReportJs.replaceAll (v.toStr env) '&' "&amp;") '<' "&lt;") '>' "&gt;") '"' "&quot;")
      (Char.ofNat 39) "&#039;"

end MainJs

namespace ReportJs

/-! ## Definitions used to state the properties -/

/-- The three per-file checks of `handleMediaSelection` pass for `file` when
`staged` is the staged list: size, MIME type, no entry of the same name and
size. -/
def fileAccepted (staged : List File) (file : File) : Bool :=
  decide (file.size ≤ MAX_FILE_SIZE)
  && (startsWith file.type "image/" || startsWith file.type "video/")
  && !staged.any (fun f => f.name == file.name && f.size == file.size)

/-- The candidates of a batch taken one by one in order, each one appended
when the three per-file checks pass at that moment. -/
def stageFiles (staged : List File) (files : List File) : List File :=
  files.foldl (fun st c => if fileAccepted st c then st ++ [c] else st) staged

/-- Staging as the specification words it: each candidate, in order, is
appended when at that moment the staged list is still under the cap of
`MAX_FILES` and the three per-file checks pass. -/
def stageFilesPerCandidate (staged : List File) (files : List File) : List File :=
  files.foldl
    (fun st c => if decide (st.length < MAX_FILES) && fileAccepted st c then st ++ [c] else st)
    staged

/-- No two entries of the list share both name and size. -/
def UniqueByNameSize (l : List File) : Prop :=
  l.Pairwise (fun a b => ¬(a.name = b.name ∧ a.size = b.size))

/-- The conditions under which, in the words of the specification, the
submission is sent: the form passes native validity, a marker exists, the
latitude and longitude fields are non-empty, and they parse to numbers for
which `isNearIndianCoast` is true. -/
def SubmitConditions (env : Env) (s : Page) : Prop :=
  env.checkValidity s.form s.mediaInputFiles = true
  ∧ s.marker.truthy = true
  ∧ s.form.latitude ≠ "" ∧ s.form.longitude ≠ ""
  ∧ (env.parseFloat s.form.latitude).isNaN = false
  ∧ (env.parseFloat s.form.longitude).isNaN = false
  ∧ isNearIndianCoast (env.parseFloat s.form.latitude) (env.parseFloat s.form.longitude) = true

/-- What the five replacements of `escapeHtml`, taken together, put in the
place of one character. -/
def escapeChar (c : Char) : List Char :=
  if c = '&' then "&amp;".toList
  else if c = '<' then "&lt;".toList
  else if c = '>' then "&gt;".toList
  else if c = '"' then "&quot;".toList
  else if c = Char.ofNat 39 then "&#039;".toList
  else [c]

/-- The five entities `escapeHtml` writes. -/
def htmlEntities : List (List Char) :=
  ["&amp;".toList, "&lt;".toList, "&gt;".toList, "&quot;".toList, "&#039;".toList]

/-- The marker layers on the map, when the page has a map. -/
def markerLayersOf (s : Page) : Option (List Nat) :=
  s.map.map (fun m => m.markerLayers)

/-- The variable `marker` and the map agree: a marker object held by the
variable is the one marker layer of the map; without such an object the map,
if there is one, has no marker layer. -/
def MarkerTracked (s : Page) : Prop :=
  match s.marker, markerLayersOf s with
  | .object id _, some layers => layers = [id]
  | .object _ _, none => False
  | _, some layers => layers = []
  | _, none => True

/-- A page step that leaves the variable `marker` and the marker layers of the
map alone. -/
def MarkerNeutral (s t : Page) : Prop :=
  t.marker = s.marker ∧ markerLayersOf t = markerLayersOf s

/-- The pages the handlers of the script can reach: the page as
`initializeMap` leaves it (the variables `map` and `marker` undefined before
it), then any sequence of handler runs. -/
inductive Reachable (env : Env) : Page → Prop where
  | load (s : Page) (leafletAvailable : Bool) :
      s.map = none → s.marker = .undefined → Reachable env (initializeMap env s leafletAvailable)
  | marker (s : Page) (lat lng : JSNum) :
      Reachable env s → Reachable env (updateMarker s lat lng)
  | click (s : Page) (lat lng : JSNum) :
      Reachable env s → Reachable env (handleMapClick env s lat lng)
  | search (s : Page) (hit : Option SearchHit) :
      Reachable env s → Reachable env (searchLocationFound env s hit)
  | searchEnd (s : Page) :
      Reachable env s → Reachable env (searchLocationEnd s)
  | geocoded (s : Page) (locationName : Option String) :
      Reachable env s → Reachable env (reverseGeocodeEnd s locationName)
  | locate (s : Page) (supported : Bool) :
      Reachable env s → Reachable env (getCurrentLocationClick s supported).1
  | located (s : Page) (originalText : String) (lat lng : JSNum) :
      Reachable env s → Reachable env (geolocationSuccessBegin env s originalText lat lng).1
  | locatedEnd (s : Page) (originalText : String) :
      Reachable env s → Reachable env (geolocationSuccessEnd s originalText)
  | locateFailed (s : Page) (originalText : String) (code : PositionErrorCode) :
      Reachable env s → Reachable env (geolocationError s originalText code)
  | weather (s : Page) (result : FetchResult WeatherData) :
      Reachable env s → Reachable env (fetchWeatherDataEnd env s result).1
  | media (s : Page) (picked : List File) :
      Reachable env s → Reachable env (mediaInputChange s picked)
  | preview (s : Page) (file : File) :
      Reachable env s → Reachable env (readerLoaded s file)
  | remove (s : Page) (fileName : String) :
      Reachable env s → Reachable env (removeMedia s fileName)
  | submit (s : Page) (now : Nat) (result : FetchResult ResponseProps) :
      Reachable env s → Reachable env (handleFormSubmit env s now result)
  | reset (s : Page) :
      Reachable env s → Reachable env (handleFormReset env s)

/-- The user id the posted form data carries, in the words of the
specification: the value of the form's `user_id` field when that field is set
to a non-empty value, otherwise `anonymous_` followed by the decimal
timestamp. -/
def expectedUserId (form : FormFields) (now : Nat) : String :=
  match form.others.find? (fun p => p.1 == "user_id") with
  | some (_, v) => if v = "" then "anonymous_" ++ toString now else v
  | none => "anonymous_" ++ toString now

/-- The text of the danger alert after a failed POST, in the words of the
specification: `Submission failed: ` followed by the `detail` of the response
body if non-empty, otherwise its `message` if non-empty, otherwise (also
without a parseable body) the generic text. -/
def expectedFailureText (env : Env) (result : FetchResult ResponseProps) : String :=
  match result with
  | .response _ (.parsed (some body)) =>
    "Submission failed: "
      ++ (body.detail.or (body.message.or (.str "Failed to submit report"))).toStr env
  | _ => "Submission failed: Failed to submit report"

/-! ## Concrete pages and files for the instances -/

/-- A report page right after load: nothing staged, no marker, the map at its
default view. -/
def freshPage : Page where
  form := ⟨"", "", "", some "", [("hazardType", "High Waves"), ("severity", "3")]⟩
  wasValidated := false
  mediaInputFiles := []
  selectedFiles := []
  mediaPreview := []
  pendingReaders := []
  mediaLabel := some "<i class=\"fas fa-upload\"></i> Click to upload images and videos"
  map := some ⟨defaultCenter, 5, []⟩
  marker := .undefined
  nextLayerId := 0
  currentWeatherData := none
  weatherDiv := some .initial
  statusDiv := []
  submitBtn := some ⟨false, "Submit Report"⟩
  severityValue := ⟨"3 - Moderate", some "#f59e0b"⟩
  requests := []
  timers := []
  locationBtn := some ⟨false, "Use My Location"⟩

/-- An image file of the given name and size. -/
def png (name : String) (size : Nat) : File := ⟨name, size, "image/png"⟩

/-- Four staged images, the file input in step with them. -/
def fourStaged : Page :=
  { freshPage with
    selectedFiles := [png "a.png" 100, png "b.png" 200, png "c.png" 300, png "d.png" 400],
    mediaInputFiles := [png "a.png" 100, png "b.png" 200, png "c.png" 300, png "d.png" 400] }

/-- The double written `80.2`. -/
def double_80_2 : JSNum := .fin (5643573283048653 / 70368744177664)

/-- A browser environment for the instances: `parseFloat` is given on the
two strings they use, every form is valid. -/
def sampleEnv : Env where
  parseFloat := fun t =>
    if t = "13.000000" then .fin 13 else if t = "80.200000" then double_80_2 else .nan
  numberToString := fun _ => "?"
  stringToNumber := fun _ => .nan
  checkValidity := fun _ _ => true
  resetFields := fun _ => ⟨"", "", "", some "", [("hazardType", ""), ("severity", "3")]⟩
  nullPropertyMessage := fun name => "Cannot read properties of null (reading " ++ name ++ ")"

/-- Five staged images, the file input in step with them. -/
def fiveStaged : Page :=
  { freshPage with
    selectedFiles :=
      [png "a.png" 100, png "b.png" 200, png "c.png" 300, png "d.png" 400, png "e.png" 500],
    mediaInputFiles :=
      [png "a.png" 100, png "b.png" 200, png "c.png" 300, png "d.png" 400, png "e.png" 500] }

/-- The page after an image `wave.png` of 100 bytes was picked on a fresh
page, then an image `wave.png` of 200 bytes (from another folder), each
preview rendered in turn. -/
def sameNameStaged : Page :=
  readerLoaded
    (mediaInputChange
      (readerLoaded (mediaInputChange freshPage [png "wave.png" 100]) (png "wave.png" 100))
      [png "wave.png" 200])
    (png "wave.png" 200)

/-- The fresh page after a map click at `(13.0, 80.2)`. -/
def clickedPage : Page := handleMapClick sampleEnv freshPage (.fin 13) double_80_2

/-- An OK response whose body is `{"report_id": "R1"}`. -/
def okR1 : FetchResult ResponseProps :=
  .response true (.parsed (some { emptyObject with report_id := .str "R1" }))

/-- A weather body with a temperature only. -/
def sampleWeather : WeatherData :=
  ⟨.num (.fin 29), .undefined, .undefined, .undefined, .undefined, .undefined,
    "\x7b\"temperature\":29\x7d"⟩

/-- The fresh page after a weather request for `(13.0, 80.2)` that succeeded
with `sampleWeather`. -/
def weatherFetched : Page :=
  (fetchWeatherData sampleEnv freshPage (.fin 13) double_80_2
    (.response true (.parsed (some sampleWeather)))).1

/-- The page `weatherFetched` after a weather request for `(14.0, 81.0)` that
was answered with a response that is not OK. -/
def weatherFailedAfterFetch : Page :=
  (fetchWeatherData sampleEnv weatherFetched (.fin 14) (.fin 81)
    (.response false (.syntaxError "Unexpected token"))).1

/-- A response body with the report id `R1` and a message holding markup. -/
def markupBody : ResponseProps :=
  { emptyObject with report_id := .str "R1", message := .str "<img src=x onerror=alert(1)>" }

/-- An OK response whose body is `markupBody`. -/
def okWithMarkup : FetchResult ResponseProps :=
  .response true (.parsed (some markupBody))

/-! ## Properties -/

/-! ### Media staging: what the handlers do to `selectedFiles` -/

theorem updateMediaLabel_selectedFiles (s : Page) :
    (updateMediaLabel s).selectedFiles = s.selectedFiles := by
  unfold updateMediaLabel
  cases s.mediaLabel <;> rfl

theorem processFile_selectedFiles (s : Page) (file : File) :
    (processFile s file).selectedFiles =
      if fileAccepted s.selectedFiles file then s.selectedFiles ++ [file]
      else s.selectedFiles := by
  unfold processFile fileAccepted
  by_cases h1 : file.size > MAX_FILE_SIZE
  · simp [h1, showAlert, not_le.mpr h1]
  · by_cases h2 : (!startsWith file.type "image/" && !startsWith file.type "video/") = true
    · rw [if_neg h1, if_pos h2]
      have h2' : (startsWith file.type "image/" || startsWith file.type "video/") = false := by
        revert h2
        cases startsWith file.type "image/" <;> cases startsWith file.type "video/" <;> simp
      simp [h2', showAlert]
    · rw [if_neg h1, if_neg h2]
      have h2' : (startsWith file.type "image/" || startsWith file.type "video/") = true := by
        revert h2
        cases startsWith file.type "image/" <;> cases startsWith file.type "video/" <;> simp
      by_cases h3 : (s.selectedFiles.any
          (fun f => f.name == file.name && f.size == file.size)) = true
      · rw [if_pos h3]
        simp [h2', h3, showAlert]
      · rw [if_neg h3]
        simp only [Bool.not_eq_true] at h3
        simp [h2', h3, not_lt.mp h1, createMediaPreview]

theorem foldl_processFile_selectedFiles (files : List File) (s : Page) :
    (files.foldl processFile s).selectedFiles = stageFiles s.selectedFiles files := by
  induction files generalizing s with
  | nil => rfl
  | cons f fs ih =>
    simp only [List.foldl_cons, stageFiles]
    rw [ih, processFile_selectedFiles]
    rfl

theorem handleMediaSelection_selectedFiles (s : Page) (files : List File) :
    (handleMediaSelection s files).selectedFiles =
      if s.selectedFiles.length + files.length > MAX_FILES then s.selectedFiles
      else stageFiles s.selectedFiles files := by
  unfold handleMediaSelection
  by_cases h0 : files.length = 0
  · have : files = [] := List.length_eq_zero.mp h0
    subst this
    simp [stageFiles]
  · rw [if_neg h0]
    by_cases h1 : s.selectedFiles.length + files.length > MAX_FILES
    · rw [if_pos h1, if_pos h1]; rfl
    · rw [if_neg h1, if_neg h1, updateMediaLabel_selectedFiles]
      exact foldl_processFile_selectedFiles files s

theorem removeMedia_selectedFiles (s : Page) (fileName : String) :
    (removeMedia s fileName).selectedFiles
      = s.selectedFiles.filter (fun f => f.name != fileName) := by
  simp only [removeMedia, showAlert]
  rw [updateMediaLabel_selectedFiles]
  rfl

theorem handleFormReset_selectedFiles (env : Env) (s : Page) :
    (handleFormReset env s).selectedFiles = [] := by
  simp only [handleFormReset, showAlert]
  split <;> simp [updateMediaLabel_selectedFiles]

theorem stageFiles_cons (staged : List File) (c : File) (files : List File) :
    stageFiles staged (c :: files) =
      stageFiles (if fileAccepted staged c then staged ++ [c] else staged) files := rfl

theorem stageFiles_length_le (files : List File) (staged : List File) :
    (stageFiles staged files).length ≤ staged.length + files.length := by
  induction files generalizing staged with
  | nil => simp [stageFiles]
  | cons c cs ih =>
    rw [stageFiles_cons]
    refine le_trans (ih _) ?_
    split <;> (simp; try omega)

theorem stageFiles_eq_perCandidate (files : List File) (staged : List File)
    (h : staged.length + files.length ≤ MAX_FILES) :
    stageFiles staged files = stageFilesPerCandidate staged files := by
  induction files generalizing staged with
  | nil => rfl
  | cons c cs ih =>
    have hlt : staged.length < MAX_FILES := by simp at h; omega
    have hstep : (if (decide (staged.length < MAX_FILES) && fileAccepted staged c) = true
        then staged ++ [c] else staged)
        = (if fileAccepted staged c then staged ++ [c] else staged) := by
      simp [hlt]
    show stageFiles (if fileAccepted staged c then staged ++ [c] else staged) cs
      = stageFilesPerCandidate
          (if (decide (staged.length < MAX_FILES) && fileAccepted staged c) = true
            then staged ++ [c] else staged) cs
    rw [hstep]
    apply ih
    split <;> simp at h ⊢ <;> omega

/-- The staged list after a batch is the list before it followed by the
accepted candidates, which form a sublist of the batch and pass the size and
type checks. -/
theorem stageFiles_eq_append (files : List File) (staged : List File) :
    ∃ appended : List File, stageFiles staged files = staged ++ appended
      ∧ appended.Sublist files
      ∧ ∀ f ∈ appended, f.size ≤ MAX_FILE_SIZE
          ∧ (startsWith f.type "image/" = true ∨ startsWith f.type "video/" = true) := by
  induction files generalizing staged with
  | nil => exact ⟨[], by simp [stageFiles], List.Sublist.refl _, by simp⟩
  | cons c cs ih =>
    rw [stageFiles_cons]
    by_cases hc : fileAccepted staged c = true
    · obtain ⟨app, happ, hsub, hall⟩ := ih (staged ++ [c])
      refine ⟨c :: app, by rw [if_pos hc, happ]; simp, hsub.cons₂ c, ?_⟩
      intro f hf
      rcases List.mem_cons.mp hf with rfl | hf
      · simp only [fileAccepted, Bool.and_eq_true, Bool.or_eq_true, decide_eq_true_eq] at hc
        exact ⟨hc.1.1, hc.1.2⟩
      · exact hall f hf
    · obtain ⟨app, happ, hsub, hall⟩ := ih staged
      exact ⟨app, by rw [if_neg hc, happ], hsub.cons c, hall⟩

theorem stageFiles_unique (files : List File) (staged : List File)
    (h : UniqueByNameSize staged) : UniqueByNameSize (stageFiles staged files) := by
  induction files generalizing staged with
  | nil => exact h
  | cons c cs ih =>
    rw [stageFiles_cons]
    apply ih
    by_cases hc : fileAccepted staged c = true
    · rw [if_pos hc]
      simp only [fileAccepted, Bool.and_eq_true, Bool.not_eq_true', List.any_eq_false,
        beq_iff_eq, not_and] at hc
      unfold UniqueByNameSize at h ⊢
      rw [List.pairwise_append]
      refine ⟨h, List.pairwise_singleton _ _, ?_⟩
      intro a ha b hb
      rw [List.mem_singleton] at hb
      subst hb
      intro hab
      exact hc.2 a ha hab.1 hab.2
    · rw [if_neg hc]; exact h

/-! ### Submission: the two halves of `handleFormSubmit` -/

theorem handleFormSubmitBegin_of_conditions (env : Env) (s : Page) (now : Nat)
    (h : SubmitConditions env s) :
    handleFormSubmitBegin env s now =
      ({ s with
          submitBtn := s.submitBtn.map (fun _ =>
            (⟨true, "<i class=\"fas fa-spinner fa-spin\"></i> Submitting report..."⟩ : Button)),
          requests := s.requests ++ [submitRequest s now] },
       some (match s.submitBtn with
             | some b => b.innerHTML
             | none => "")) := by
  obtain ⟨hv, hm, hlat, hlng, hn1, hn2, hbox⟩ := h
  simp [handleFormSubmitBegin, hv, hm, hlat, hlng, hn1, hn2, hbox]

theorem handleFormSubmitBegin_of_not_conditions (env : Env) (s : Page) (now : Nat)
    (h : ¬ SubmitConditions env s) :
    ∃ message : String, ∃ validated : Bool,
      handleFormSubmitBegin env s now =
        (showAlert { s with wasValidated := validated } message "warning" 5000, none) := by
  unfold handleFormSubmitBegin
  by_cases hv : env.checkValidity s.form s.mediaInputFiles = true
  · by_cases hloc : (!s.marker.truthy || s.form.latitude == "" || s.form.longitude == "") = true
    · exact ⟨_, s.wasValidated, by simp only [hv, hloc]; rfl⟩
    · by_cases hbox : ((env.parseFloat s.form.latitude).isNaN
          || (env.parseFloat s.form.longitude).isNaN
          || !isNearIndianCoast (env.parseFloat s.form.latitude)
                (env.parseFloat s.form.longitude)) = true
      · exact ⟨_, s.wasValidated, by simp only [hv, hloc, hbox]; rfl⟩
      · exfalso
        apply h
        simp only [Bool.or_eq_true, Bool.not_eq_true', beq_iff_eq, not_or,
          Bool.not_eq_false, Bool.not_eq_true] at hloc hbox
        exact ⟨hv, hloc.1.1, hloc.1.2, hloc.2, hbox.1.1, hbox.1.2, hbox.2⟩
  · exact ⟨_, true, by simp only [hv]; rfl⟩

/-- What the second half of `handleFormSubmit` leaves alone, and what it does
to the submit button. -/
theorem handleFormSubmitEnd_frame (env : Env) (s : Page) (originalBtnText : String)
    (result : FetchResult ResponseProps) :
    (handleFormSubmitEnd env s originalBtnText result).requests = s.requests
    ∧ (handleFormSubmitEnd env s originalBtnText result).form = s.form
    ∧ (handleFormSubmitEnd env s originalBtnText result).selectedFiles = s.selectedFiles
    ∧ (handleFormSubmitEnd env s originalBtnText result).mediaInputFiles = s.mediaInputFiles
    ∧ (handleFormSubmitEnd env s originalBtnText result).mediaPreview = s.mediaPreview
    ∧ (handleFormSubmitEnd env s originalBtnText result).marker = s.marker
    ∧ (handleFormSubmitEnd env s originalBtnText result).map = s.map
    ∧ (handleFormSubmitEnd env s originalBtnText result).currentWeatherData
        = s.currentWeatherData
    ∧ (handleFormSubmitEnd env s originalBtnText result).weatherDiv = s.weatherDiv
    ∧ (handleFormSubmitEnd env s originalBtnText result).submitBtn
        = s.submitBtn.map (fun _ => (⟨false, originalBtnText⟩ : Button)) := by
  unfold handleFormSubmitEnd
  rcases result with m | ⟨ok, json⟩
  · simp [submissionFailed, showAlert]
  · cases ok
    · rcases json with m | (_ | d) <;> simp [submissionFailed, showAlert]
    · rcases json with m | (_ | d) <;> simp [submissionFailed, showAlert]

/-- A failed request schedules nothing. -/
theorem handleFormSubmitEnd_timers_of_failure (env : Env) (s : Page)
    (originalBtnText : String) (result : FetchResult ResponseProps)
    (h : (∃ m, result = .rejected m) ∨ (∃ json, result = .response false json)) :
    (handleFormSubmitEnd env s originalBtnText result).timers = s.timers := by
  unfold handleFormSubmitEnd
  rcases h with ⟨m, rfl⟩ | ⟨json, rfl⟩
  · simp [submissionFailed, showAlert]
  · rcases json with m | (_ | d) <;> simp [submissionFailed, showAlert]

theorem mem_formDataSet_of_ne (name : String) (v : FormValue) (e : String × FormValue)
    (entries : List (String × FormValue)) (he : e ∈ entries) (hne : e.1 ≠ name) :
    e ∈ formDataSet name v entries := by
  induction entries with
  | nil => cases he
  | cons x xs ih =>
    unfold formDataSet
    rcases List.mem_cons.mp he with rfl | hmem
    · rw [if_neg hne]; exact List.mem_cons_self _ _
    · split
      · refine List.mem_cons_of_mem _ (List.mem_filter.mpr ⟨hmem, ?_⟩)
        simpa using hne
      · exact List.mem_cons_of_mem _ (ih hmem)

theorem mem_submitBody (s : Page) (now : Nat) (e : String × FormValue)
    (he : e ∈ formDataOf s.form s.mediaInputFiles) (hne : e.1 ≠ "user_id") :
    e ∈ submitBody s now := by
  unfold submitBody
  simp only
  split
  · exact he
  · split
    · exact mem_formDataSet_of_ne _ _ _ _ he hne
    · exact he
  · exact mem_formDataSet_of_ne _ _ _ _ he hne

theorem fetchWeatherDataBegin_form (env : Env) (s : Page) (lat lng : JSNum) :
    (fetchWeatherDataBegin env s lat lng).form = s.form := by
  unfold fetchWeatherDataBegin
  split <;> rfl

theorem updateMarker_form (s : Page) (lat lng : JSNum) :
    (updateMarker s lat lng).form = s.form := by
  unfold updateMarker
  split
  · rfl
  · split <;> rfl

theorem handleMapClick_form (env : Env) (s : Page) (lat lng : JSNum) :
    (handleMapClick env s lat lng).form =
      { s.form with latitude := toFixed env lat 6, longitude := toFixed env lng 6 } := by
  simp only [handleMapClick, showAlert, fetchWeatherDataBegin_form, reverseGeocodeBegin,
    updateMarker_form]

/-- The method `toFixed` on a value in `[0, 10^21)`: the digits of the
integer `n` nearest to the value scaled by `10^f`. -/
theorem toFixed_of_round (env : Env) (q : ℚ) (f n : Nat) (h0 : 0 ≤ q) (h21 : q < 10 ^ 21)
    (hf : f ≠ 0) (hlo : (n : ℚ) ≤ q * 10 ^ f + 1 / 2) (hhi : q * 10 ^ f + 1 / 2 < n + 1) :
    toFixed env (.fin q) f = toString (n / 10 ^ f) ++ "." ++ padZeros f (n % 10 ^ f) := by
  have hfl : ⌊q * 10 ^ f + 1 / 2⌋ = (n : ℤ) := by
    rw [Int.floor_eq_iff]
    exact ⟨by exact_mod_cast hlo, by exact_mod_cast hhi⟩
  simp only [toFixed, abs_of_nonneg h0, hfl, Int.toNat_ofNat, if_neg hf,
    if_neg (not_lt.mpr h0), if_neg (not_le.mpr h21)]
  rfl

theorem toFixed_13 (env : Env) : toFixed env (.fin 13) 6 = "13.000000" := by
  rw [toFixed_of_round env 13 6 13000000 (by norm_num) (by norm_num) (by decide)
    (by norm_num) (by norm_num)]
  decide

theorem toFixed_80_2 (env : Env) : toFixed env double_80_2 6 = "80.200000" := by
  unfold double_80_2
  rw [toFixed_of_round env _ 6 80200000 (by norm_num) (by norm_num) (by decide)
    (by norm_num) (by norm_num)]
  decide

theorem isNearIndianCoast_box_of_fin (a b : ℚ) :
    isNearIndianCoast (.fin a) (.fin b) = true ↔ (6 ≤ a ∧ a ≤ 25 ∧ 68 ≤ b ∧ b ≤ 98) := by
  simp [isNearIndianCoast, JSNum.ge, JSNum.le, and_assoc]

theorem clickedPage_form :
    clickedPage.form = { freshPage.form with latitude := "13.000000", longitude := "80.200000" } := by
  have hform := handleMapClick_form sampleEnv freshPage (.fin 13) double_80_2
  rw [toFixed_13, toFixed_80_2] at hform
  exact hform

theorem clickedPage_conditions : SubmitConditions sampleEnv clickedPage := by
  unfold SubmitConditions
  rw [clickedPage_form]
  refine ⟨rfl, by decide, by decide, by decide, by decide, by decide, ?_⟩
  exact (isNearIndianCoast_box_of_fin 13 _).mpr (by norm_num)

/-- C1: `isNearIndianCoast(lat, lon)` is true exactly when both numbers are
finite with `6 ≤ lat ≤ 25` and `68 ≤ lon ≤ 98`, all four bounds inclusive (NaN
and the infinities give false); `(20, 80)` gives true and `(0, 0)` false. -/
theorem isNearIndianCoast_iff_in_box (lat lon : JSNum) :
    (isNearIndianCoast lat lon = true ↔
      ∃ a b : ℚ, lat = .fin a ∧ lon = .fin b ∧ 6 ≤ a ∧ a ≤ 25 ∧ 68 ≤ b ∧ b ≤ 98)
    ∧ isNearIndianCoast (.fin 20) (.fin 80) = true
    ∧ isNearIndianCoast (.fin 0) (.fin 0) = false := by
  refine ⟨?_, by decide, by decide⟩
  cases lat <;> cases lon <;>
    simp [isNearIndianCoast, JSNum.ge, JSNum.le, and_assoc]


/-- C2 (as stated, refuted): with four files staged and a batch of two valid
new files, the handler stages neither of them, while staging candidate by
candidate under the cap would append the first. -/
theorem handleMediaSelection_over_cap_counterexample :
    (handleMediaSelection fourStaged [png "e.png" 500, png "f.png" 600]).selectedFiles
        = fourStaged.selectedFiles
    ∧ stageFilesPerCandidate fourStaged.selectedFiles [png "e.png" 500, png "f.png" 600]
        = fourStaged.selectedFiles ++ [png "e.png" 500]
    ∧ (handleMediaSelection fourStaged [png "e.png" 500, png "f.png" 600]).selectedFiles
        ≠ stageFilesPerCandidate fourStaged.selectedFiles [png "e.png" 500, png "f.png" 600] := by
  have h1 : (handleMediaSelection fourStaged [png "e.png" 500, png "f.png" 600]).selectedFiles
      = fourStaged.selectedFiles := by
    rw [handleMediaSelection_selectedFiles]; rfl
  have h2 : stageFilesPerCandidate fourStaged.selectedFiles
      [png "e.png" 500, png "f.png" 600] = fourStaged.selectedFiles ++ [png "e.png" 500] := by
    decide
  refine ⟨h1, h2, ?_⟩
  rw [h1, h2]
  decide

/-- C2 (amended): a batch that would take the staged list over `MAX_FILES` is
rejected as a whole and the staged list is unchanged; otherwise the candidates
are taken one by one in order and each is appended exactly when, at that
moment, it is at most 10 MiB, its MIME type starts with `image/` or `video/`
and no staged entry has its name and size, which is then also what staging
candidate by candidate under the cap gives. The rejection of a non-empty batch
over the cap shows exactly one alert, the warning `Maximum 5 files allowed.
Please remove some files before adding more.`, as the first child of the
status panel, and starts no preview. -/
theorem handleMediaSelection_stages_batch (s : Page) (files : List File) :
    (s.selectedFiles.length + files.length > MAX_FILES →
      (handleMediaSelection s files).selectedFiles = s.selectedFiles)
    ∧ (s.selectedFiles.length + files.length ≤ MAX_FILES →
      (handleMediaSelection s files).selectedFiles = stageFiles s.selectedFiles files
      ∧ (handleMediaSelection s files).selectedFiles
          = stageFilesPerCandidate s.selectedFiles files)
    ∧ (files ≠ [] → s.selectedFiles.length + files.length > MAX_FILES →
      (handleMediaSelection s files).statusDiv
          = .alert ⟨"Maximum 5 files allowed. Please remove some files before adding more.",
              "warning", 5000⟩ :: s.statusDiv
      ∧ (handleMediaSelection s files).pendingReaders = s.pendingReaders
      ∧ (handleMediaSelection s files).mediaPreview = s.mediaPreview) := by
  refine ⟨?_, ?_, ?_⟩
  · intro h
    rw [handleMediaSelection_selectedFiles, if_pos h]
  · intro h
    rw [handleMediaSelection_selectedFiles, if_neg (not_lt.mpr h)]
    exact ⟨rfl, stageFiles_eq_perCandidate files _ h⟩
  · intro hne h
    have h0 : ¬ files.length = 0 := fun e => hne (List.length_eq_zero.mp e)
    have hmsg : "Maximum " ++ toString MAX_FILES
        ++ " files allowed. Please remove some files before adding more."
        = "Maximum 5 files allowed. Please remove some files before adding more." := by
      decide
    unfold handleMediaSelection
    rw [if_neg h0, if_pos h, hmsg]
    exact ⟨rfl, rfl, rfl⟩

/-- Instance of C2 (amended): four files staged and a batch of one new image,
which is appended; four files staged and a batch of two, which gets the one
warning. -/
theorem handleMediaSelection_stages_batch_witness :
    (handleMediaSelection fourStaged [png "e.png" 500]).selectedFiles
      = fourStaged.selectedFiles ++ [png "e.png" 500]
    ∧ (handleMediaSelection fourStaged [png "e.png" 500, png "f.png" 600]).statusDiv
      = [.alert ⟨"Maximum 5 files allowed. Please remove some files before adding more.",
          "warning", 5000⟩] := by
  refine ⟨?_, ((handleMediaSelection_stages_batch fourStaged
    [png "e.png" 500, png "f.png" 600]).2.2 (by decide) (by decide)).1⟩
  rw [((handleMediaSelection_stages_batch fourStaged [png "e.png" 500]).2.1 (by decide)).1]
  decide

/-- C3 (the code at the failing input): two images named `wave.png` of
different sizes, picked one after the other on a fresh page, are both staged
and previewed; `removeMedia("wave.png")` then removes both staged entries, not
one, and only one of the two previews. -/
theorem removeMedia_same_name_removes_both :
    sameNameStaged.selectedFiles = [png "wave.png" 100, png "wave.png" 200]
    ∧ sameNameStaged.mediaPreview = ["wave.png", "wave.png"]
    ∧ (removeMedia sameNameStaged "wave.png").selectedFiles = []
    ∧ (removeMedia sameNameStaged "wave.png").mediaPreview = ["wave.png"] := by
  decide

/-- How far the file input follows the staged list: after `removeMedia`
always, and after a change event whose batch is not empty and fits under the
cap. -/
theorem mediaInputFiles_in_step (s : Page) (fileName : String) (picked : List File)
    (hne : picked ≠ []) (hfit : s.selectedFiles.length + picked.length ≤ MAX_FILES) :
    (removeMedia s fileName).mediaInputFiles = (removeMedia s fileName).selectedFiles
    ∧ (mediaInputChange s picked).mediaInputFiles = (mediaInputChange s picked).selectedFiles := by
  constructor
  · simp only [removeMedia, showAlert]
    unfold updateMediaLabel
    split <;> rfl
  · have h0 : ¬ picked.length = 0 := fun h => hne (List.length_eq_zero.mp h)
    have h1 : ¬ (s.selectedFiles.length + picked.length > MAX_FILES) := not_lt.mpr hfit
    simp only [mediaInputChange, handleMediaSelection, if_neg h0, if_neg h1]
    unfold updateMediaLabel
    split <;> rfl

/-- C4 (the code at the failing inputs): with four files staged and the input
in step with them, a change event with a batch of two leaves the input holding
the two rejected files while the staged list keeps its four; a change event
with an empty batch leaves the input empty and the staged list at four. The
body of a submission made then carries a rejected file and not the staged
one. -/
theorem mediaInputChange_out_of_step :
    fourStaged.mediaInputFiles = fourStaged.selectedFiles
    ∧ (mediaInputChange fourStaged [png "e.png" 500, png "f.png" 600]).mediaInputFiles
        = [png "e.png" 500, png "f.png" 600]
    ∧ (mediaInputChange fourStaged [png "e.png" 500, png "f.png" 600]).selectedFiles
        = [png "a.png" 100, png "b.png" 200, png "c.png" 300, png "d.png" 400]
    ∧ (mediaInputChange fourStaged []).mediaInputFiles = []
    ∧ (mediaInputChange fourStaged []).selectedFiles
        = [png "a.png" 100, png "b.png" 200, png "c.png" 300, png "d.png" 400]
    ∧ ("mediaFiles", FormValue.file (png "e.png" 500))
        ∈ submitBody (mediaInputChange fourStaged [png "e.png" 500, png "f.png" 600]) 0
    ∧ ("mediaFiles", FormValue.file (png "a.png" 100))
        ∉ submitBody (mediaInputChange fourStaged [png "e.png" 500, png "f.png" 600]) 0 := by
  decide

/-- C5: from a staged list of at most 5 files `handleMediaSelection` yields a
staged list of at most 5 files, whatever the batch; with exactly 5 files
staged, a non-empty batch leaves the staged list unchanged. The two other
handlers that write the staged list, `removeMedia` and `handleFormReset`, keep
it at 5 files or fewer as well. -/
theorem handleMediaSelection_at_most_five (env : Env) (s : Page) (files : List File)
    (fileName : String) (h : s.selectedFiles.length ≤ 5) :
    (handleMediaSelection s files).selectedFiles.length ≤ 5
    ∧ (s.selectedFiles.length = 5 → files ≠ [] →
        (handleMediaSelection s files).selectedFiles = s.selectedFiles)
    ∧ (removeMedia s fileName).selectedFiles.length ≤ 5
    ∧ (handleFormReset env s).selectedFiles.length ≤ 5 := by
  refine ⟨?_, ?_, ?_, ?_⟩
  · rw [handleMediaSelection_selectedFiles]
    split
    · exact h
    · next hfit =>
      have := stageFiles_length_le files s.selectedFiles
      simp only [MAX_FILES] at hfit
      omega
  · intro h5 hne
    have hpos : 0 < files.length := List.length_pos.mpr hne
    rw [handleMediaSelection_selectedFiles, if_pos (by simp only [MAX_FILES]; omega)]
  · rw [removeMedia_selectedFiles]
    exact le_trans (List.length_filter_le _ _) h
  · rw [handleFormReset_selectedFiles]
    exact Nat.zero_le _

/-- Instance of C5: five files staged and a batch of one new image. -/
theorem handleMediaSelection_at_most_five_witness :
    (handleMediaSelection fiveStaged [png "f.png" 600]).selectedFiles.length ≤ 5
    ∧ (handleMediaSelection fiveStaged [png "f.png" 600]).selectedFiles
        = fiveStaged.selectedFiles :=
  ⟨(handleMediaSelection_at_most_five sampleEnv fiveStaged [png "f.png" 600] "a.png"
      (by decide)).1,
   (handleMediaSelection_at_most_five sampleEnv fiveStaged [png "f.png" 600] "a.png"
      (by decide)).2.1 (by decide) (by decide)⟩

/-- C6: if no two staged entries share both name and size, none do after
`handleMediaSelection` (whatever the batch, also one holding a file twice),
after `removeMedia` and after `handleFormReset`; a single candidate whose name
and size are those of a staged entry leaves the staged list unchanged. -/
theorem staged_unique_by_name_size (env : Env) (s : Page) (files : List File)
    (fileName : String) (h : UniqueByNameSize s.selectedFiles) :
    UniqueByNameSize (handleMediaSelection s files).selectedFiles
    ∧ UniqueByNameSize (removeMedia s fileName).selectedFiles
    ∧ UniqueByNameSize (handleFormReset env s).selectedFiles
    ∧ (∀ c : File, (∃ f ∈ s.selectedFiles, f.name = c.name ∧ f.size = c.size) →
        (handleMediaSelection s [c]).selectedFiles = s.selectedFiles) := by
  refine ⟨?_, ?_, ?_, ?_⟩
  · rw [handleMediaSelection_selectedFiles]
    split
    · exact h
    · exact stageFiles_unique files _ h
  · rw [removeMedia_selectedFiles]
    exact List.Pairwise.filter _ h
  · rw [handleFormReset_selectedFiles]
    exact List.Pairwise.nil
  · rintro c ⟨f, hf, hname, hsize⟩
    rw [handleMediaSelection_selectedFiles]
    split
    · rfl
    · have hdup : (s.selectedFiles.any (fun g => g.name == c.name && g.size == c.size))
          = true := by
        rw [List.any_eq_true]
        exact ⟨f, hf, by simp [hname, hsize]⟩
      simp only [stageFiles, fileAccepted, hdup, List.foldl_cons, List.foldl_nil]
      simp

/-- Instance of C6: a batch holding one new image twice, and a batch holding a
staged image again. -/
theorem staged_unique_by_name_size_witness :
    UniqueByNameSize
      (handleMediaSelection fourStaged [png "e.png" 500, png "e.png" 500]).selectedFiles
    ∧ (handleMediaSelection fourStaged [png "a.png" 100]).selectedFiles
        = fourStaged.selectedFiles :=
  have h : UniqueByNameSize fourStaged.selectedFiles := by
    unfold UniqueByNameSize; decide
  ⟨(staged_unique_by_name_size sampleEnv fourStaged [png "e.png" 500, png "e.png" 500]
      "a.png" h).1,
   (staged_unique_by_name_size sampleEnv fourStaged [] "a.png" h).2.2.2 (png "a.png" 100)
      ⟨png "a.png" 100, by decide, rfl, rfl⟩⟩


/-- C7: the staged list after `handleMediaSelection` is the list before it
followed by files of the batch that each have at most `10 * 1024 * 1024`
bytes and a MIME type starting with `image/` or `video/`; a candidate above
10 MiB is not staged whatever its type; a candidate of exactly 10 MiB with a
valid type, no staged entry of its name and size and room under the cap is
staged. -/
theorem handleMediaSelection_size_and_type (s : Page) (files : List File) :
    (∃ appended : List File,
      (handleMediaSelection s files).selectedFiles = s.selectedFiles ++ appended
      ∧ appended.Sublist files
      ∧ ∀ f ∈ appended, f.size ≤ 10 * 1024 * 1024
          ∧ (startsWith f.type "image/" = true ∨ startsWith f.type "video/" = true))
    ∧ (∀ c : File, c.size > 10 * 1024 * 1024 →
        (handleMediaSelection s [c]).selectedFiles = s.selectedFiles)
    ∧ (∀ c : File, c.size = 10 * 1024 * 1024 →
        (startsWith c.type "image/" = true ∨ startsWith c.type "video/" = true) →
        (∀ f ∈ s.selectedFiles, ¬(f.name = c.name ∧ f.size = c.size)) →
        s.selectedFiles.length + 1 ≤ MAX_FILES →
        (handleMediaSelection s [c]).selectedFiles = s.selectedFiles ++ [c]) := by
  refine ⟨?_, ?_, ?_⟩
  · rw [handleMediaSelection_selectedFiles]
    split
    · exact ⟨[], by simp, List.nil_sublist _, by simp⟩
    · exact stageFiles_eq_append files s.selectedFiles
  · intro c hc
    rw [handleMediaSelection_selectedFiles]
    split
    · rfl
    · have hsz : ¬ c.size ≤ MAX_FILE_SIZE := by simp only [MAX_FILE_SIZE]; omega
      simp [stageFiles, fileAccepted, hsz]
  · intro c hsize htype hdup hcap
    rw [handleMediaSelection_selectedFiles, if_neg (by simpa using hcap)]
    have hsz : c.size ≤ MAX_FILE_SIZE := by simp only [MAX_FILE_SIZE]; omega
    have hty : (startsWith c.type "image/" || startsWith c.type "video/") = true := by
      simpa using htype
    have hnd : (s.selectedFiles.any (fun f => f.name == c.name && f.size == c.size))
        = false := by
      rw [List.any_eq_false]
      intro f hf
      simpa using hdup f hf
    simp only [stageFiles, fileAccepted, hsz, hty, hnd, List.foldl_cons, List.foldl_nil]
    simp

/-- Instance of C7: a video of exactly 10 MiB is staged, one of a byte more is
not. -/
theorem handleMediaSelection_size_and_type_witness :
    (handleMediaSelection freshPage [⟨"surf.mp4", 10485760, "video/mp4"⟩]).selectedFiles
        = [⟨"surf.mp4", 10485760, "video/mp4"⟩]
    ∧ (handleMediaSelection freshPage [⟨"surf.mp4", 10485761, "video/mp4"⟩]).selectedFiles
        = [] :=
  ⟨(handleMediaSelection_size_and_type freshPage []).2.2 ⟨"surf.mp4", 10485760, "video/mp4"⟩
      (by decide) (by decide) (by decide) (by decide),
   (handleMediaSelection_size_and_type freshPage []).2.1 ⟨"surf.mp4", 10485761, "video/mp4"⟩
      (by decide)⟩


/-- C8: `handleFormSubmit` sends its POST exactly when the form passes native
validity, a marker exists, the latitude and longitude fields are non-empty and
parse to numbers for which `isNearIndianCoast` is true; otherwise it shows a
warning as the first child of the status panel, sends no request and leaves
the submit button as it was. With no marker placed no request is sent. -/
theorem handleFormSubmit_posts_iff (env : Env) (s : Page) (now : Nat)
    (result : FetchResult ResponseProps) :
    (SubmitConditions env s →
      (handleFormSubmit env s now result).requests = s.requests ++ [submitRequest s now]
      ∧ (submitRequest s now).method = "POST")
    ∧ (¬ SubmitConditions env s →
      (handleFormSubmit env s now result).requests = s.requests
      ∧ (handleFormSubmit env s now result).submitBtn = s.submitBtn
      ∧ ∃ message : String, (handleFormSubmit env s now result).statusDiv
          = .alert ⟨message, "warning", 5000⟩ :: s.statusDiv)
    ∧ (s.marker = .undefined ∨ s.marker = .null →
      (handleFormSubmit env s now result).requests = s.requests) := by
  have hno : ¬ SubmitConditions env s →
      (handleFormSubmit env s now result).requests = s.requests
      ∧ (handleFormSubmit env s now result).submitBtn = s.submitBtn
      ∧ ∃ message : String, (handleFormSubmit env s now result).statusDiv
          = .alert ⟨message, "warning", 5000⟩ :: s.statusDiv := by
    intro h
    obtain ⟨message, validated, hb⟩ := handleFormSubmitBegin_of_not_conditions env s now h
    simp only [handleFormSubmit, hb]
    exact ⟨rfl, rfl, message, rfl⟩
  refine ⟨?_, hno, ?_⟩
  · intro h
    simp only [handleFormSubmit, handleFormSubmitBegin_of_conditions env s now h]
    exact ⟨(handleFormSubmitEnd_frame env _ _ result).1, rfl⟩
  · intro hm
    refine (hno ?_).1
    rintro ⟨_, hmk, _⟩
    rcases hm with hm | hm <;> rw [hm] at hmk <;> cases hmk

/-- Instance of C8: no request from the fresh page (no marker); one more
request from the page with a marker at `(13.0, 80.2)`. -/
theorem handleFormSubmit_posts_iff_witness :
    (handleFormSubmit sampleEnv freshPage 1700000000000 okR1).requests = []
    ∧ (handleFormSubmit sampleEnv clickedPage 1700000000000 okR1).requests
        = clickedPage.requests ++ [submitRequest clickedPage 1700000000000] := by
  have hc := clickedPage_conditions
  exact ⟨(handleFormSubmit_posts_iff sampleEnv freshPage 1700000000000 okR1).2.2 (Or.inl rfl),
    ((handleFormSubmit_posts_iff sampleEnv clickedPage 1700000000000 okR1).1 hc).1⟩


/-- C9: when the checks of `handleFormSubmit` pass, exactly one request is
added, a POST to `http://127.0.0.1:8001/api/reports/submit` whose body carries
the latitude and longitude fields of the form; after an OK response with a
parsed body `data` the status panel holds the success markup, in which
`escapeHtml(data.report_id)` stands after the label `Report ID:`, and exactly
one timer is added, a form reset after 3000 ms. A map click at `(13.0, 80.2)` sets the two fields to
`13.000000` and `80.200000`. -/
theorem handleFormSubmit_posts_once (env : Env) (s : Page) (now : Nat)
    (result : FetchResult ResponseProps) (h : SubmitConditions env s) :
    (∃ body : List (String × FormValue),
      (handleFormSubmit env s now result).requests
        = s.requests ++ [⟨"POST", "http://127.0.0.1:8001/api/reports/submit", body⟩]
      ∧ ("latitude", FormValue.text s.form.latitude) ∈ body
      ∧ ("longitude", FormValue.text s.form.longitude) ∈ body)
    ∧ (∀ data : ResponseProps, result = .response true (.parsed (some data)) →
        (handleFormSubmit env s now result).statusDiv
          = [.markup (successPanelHead ++ escapeHtml env data.report_id
              ++ successPanelTail env data)]
        ∧ (handleFormSubmit env s now result).timers = s.timers ++ [⟨3000, .formReset⟩])
    ∧ (∀ s0 : Page,
        (handleMapClick env s0 (.fin 13) double_80_2).form.latitude = "13.000000"
        ∧ (handleMapClick env s0 (.fin 13) double_80_2).form.longitude = "80.200000") := by
  refine ⟨?_, ?_, ?_⟩
  · refine ⟨submitBody s now, ?_, ?_, ?_⟩
    · simp only [handleFormSubmit, handleFormSubmitBegin_of_conditions env s now h]
      exact (handleFormSubmitEnd_frame env _ _ result).1
    · exact mem_submitBody s now _ (by simp [formDataOf]) (by simp)
    · exact mem_submitBody s now _ (by simp [formDataOf]) (by simp)
  · rintro data rfl
    simp only [handleFormSubmit, handleFormSubmitBegin_of_conditions env s now h]
    exact ⟨rfl, rfl⟩
  · intro s0
    rw [handleMapClick_form, toFixed_13, toFixed_80_2]
    exact ⟨rfl, rfl⟩

/-- Instance of C9: the page with a marker at `(13.0, 80.2)` and the response
with report id `R1`. -/
theorem handleFormSubmit_posts_once_witness :
    (∃ body : List (String × FormValue),
      (handleFormSubmit sampleEnv clickedPage 1700000000000 okR1).requests
        = clickedPage.requests ++ [⟨"POST", "http://127.0.0.1:8001/api/reports/submit", body⟩]
      ∧ ("latitude", FormValue.text "13.000000") ∈ body
      ∧ ("longitude", FormValue.text "80.200000") ∈ body)
    ∧ (∃ before after : String,
        (handleFormSubmit sampleEnv clickedPage 1700000000000 okR1).statusDiv
          = [.markup (before ++ "R1" ++ after)])
    ∧ (handleFormSubmit sampleEnv clickedPage 1700000000000 okR1).timers
        = [⟨3000, .formReset⟩] := by
  have h := handleFormSubmit_posts_once sampleEnv clickedPage 1700000000000 okR1
    clickedPage_conditions
  have hform := clickedPage_form
  refine ⟨?_, ?_, ?_⟩
  · obtain ⟨body, hreq, hlat, hlng⟩ := h.1
    rw [hform] at hlat hlng
    exact ⟨body, hreq, hlat, hlng⟩
  · exact ⟨_, _, (h.2.1 _ rfl).1⟩
  · exact (h.2.1 _ rfl).2

/-- C10: when the checks pass and the POST fails (the `fetch` rejects or the
response is not OK), `handleFormSubmit` schedules no timer and leaves the form
fields, the staged list, the file input, the marker, the map and the weather
snapshot as they were; whatever the outcome of the POST, an existing submit
button ends enabled with the label it had before the call. -/
theorem handleFormSubmit_failure_frame (env : Env) (s : Page) (now : Nat)
    (result : FetchResult ResponseProps) (h : SubmitConditions env s) :
    ((∃ m, result = .rejected m) ∨ (∃ json, result = .response false json) →
      (handleFormSubmit env s now result).timers = s.timers
      ∧ (handleFormSubmit env s now result).form = s.form
      ∧ (handleFormSubmit env s now result).selectedFiles = s.selectedFiles
      ∧ (handleFormSubmit env s now result).mediaInputFiles = s.mediaInputFiles
      ∧ (handleFormSubmit env s now result).marker = s.marker
      ∧ (handleFormSubmit env s now result).map = s.map
      ∧ (handleFormSubmit env s now result).currentWeatherData = s.currentWeatherData
      ∧ (handleFormSubmit env s now result).weatherDiv = s.weatherDiv)
    ∧ (handleFormSubmit env s now result).submitBtn
        = s.submitBtn.map (fun b => (⟨false, b.innerHTML⟩ : Button)) := by
  simp only [handleFormSubmit, handleFormSubmitBegin_of_conditions env s now h]
  have hf := handleFormSubmitEnd_frame env
    { s with
      submitBtn := s.submitBtn.map (fun _ =>
        (⟨true, "<i class=\"fas fa-spinner fa-spin\"></i> Submitting report..."⟩ : Button)),
      requests := s.requests ++ [submitRequest s now] }
    (match s.submitBtn with
     | some b => b.innerHTML
     | none => "") result
  obtain ⟨_, hform, hsel, hinp, _, hmk, hmap, hw, hwd, hbtn⟩ := hf
  refine ⟨fun hfail => ⟨?_, hform, hsel, hinp, hmk, hmap, hw, hwd⟩, ?_⟩
  · exact handleFormSubmitEnd_timers_of_failure env _ _ result hfail
  · rw [hbtn]
    cases s.submitBtn <;> rfl

/-- Instance of C10: the page with a marker at `(13.0, 80.2)` and a rejected
`fetch`. -/
theorem handleFormSubmit_failure_frame_witness :
    (handleFormSubmit sampleEnv clickedPage 1700000000000 (.rejected "Failed to fetch")).timers
        = []
    ∧ (handleFormSubmit sampleEnv clickedPage 1700000000000
        (.rejected "Failed to fetch")).form = clickedPage.form
    ∧ (handleFormSubmit sampleEnv clickedPage 1700000000000
        (.rejected "Failed to fetch")).submitBtn = some ⟨false, "Submit Report"⟩ := by
  have h := handleFormSubmit_failure_frame sampleEnv clickedPage 1700000000000
    (.rejected "Failed to fetch") clickedPage_conditions
  exact ⟨(h.1 (Or.inl ⟨_, rfl⟩)).1, (h.1 (Or.inl ⟨_, rfl⟩)).2.1, h.2⟩


/-! ### The marker variable and the marker layers of the map -/

theorem MarkerNeutral.refl (s : Page) : MarkerNeutral s s := ⟨rfl, rfl⟩

theorem MarkerNeutral.trans {s t u : Page} (h1 : MarkerNeutral s t)
    (h2 : MarkerNeutral t u) : MarkerNeutral s u :=
  ⟨h2.1.trans h1.1, h2.2.trans h1.2⟩

theorem MarkerNeutral.tracked {s s1 : Page} (h : MarkerNeutral s s1)
    (ht : MarkerTracked s) : MarkerTracked s1 := by
  unfold MarkerTracked at ht ⊢
  rw [h.1, h.2]
  exact ht

theorem showAlert_neutral (s : Page) (message type : String) (timeout : Nat) :
    MarkerNeutral s (showAlert s message type timeout) := ⟨rfl, rfl⟩

theorem updateMediaLabel_neutral (s : Page) : MarkerNeutral s (updateMediaLabel s) := by
  unfold updateMediaLabel
  cases s.mediaLabel <;> exact ⟨rfl, rfl⟩

theorem processFile_neutral (s : Page) (file : File) : MarkerNeutral s (processFile s file) := by
  unfold processFile
  split
  · exact ⟨rfl, rfl⟩
  · split
    · exact ⟨rfl, rfl⟩
    · split <;> exact ⟨rfl, rfl⟩

theorem foldl_processFile_neutral (files : List File) (s : Page) :
    MarkerNeutral s (files.foldl processFile s) := by
  induction files generalizing s with
  | nil => exact MarkerNeutral.refl s
  | cons f fs ih => exact (processFile_neutral s f).trans (ih _)

theorem handleMediaSelection_neutral (s : Page) (files : List File) :
    MarkerNeutral s (handleMediaSelection s files) := by
  unfold handleMediaSelection
  split
  · exact MarkerNeutral.refl s
  · split
    · exact ⟨rfl, rfl⟩
    · exact ((foldl_processFile_neutral files s).trans ⟨rfl, rfl⟩).trans
        (updateMediaLabel_neutral _)

theorem mediaInputChange_neutral (s : Page) (picked : List File) :
    MarkerNeutral s (mediaInputChange s picked) :=
  MarkerNeutral.trans (t := { s with mediaInputFiles := picked }) ⟨rfl, rfl⟩
    (handleMediaSelection_neutral _ picked)

theorem removeMedia_neutral (s : Page) (fileName : String) :
    MarkerNeutral s (removeMedia s fileName) := by
  have h := updateMediaLabel_neutral
    (updateFileInput { s with selectedFiles := s.selectedFiles.filter (fun f => f.name != fileName) })
  exact ⟨h.1, h.2⟩

theorem fetchWeatherDataBegin_neutral (env : Env) (s : Page) (lat lng : JSNum) :
    MarkerNeutral s (fetchWeatherDataBegin env s lat lng) := by
  unfold fetchWeatherDataBegin
  split <;> exact ⟨rfl, rfl⟩

theorem renderWeatherData_neutral (s : Page) (data : WeatherData) :
    MarkerNeutral s (renderWeatherData s data) := by
  unfold renderWeatherData
  split <;> exact ⟨rfl, rfl⟩

theorem fetchWeatherDataTry_neutral (env : Env) (s : Page) (result : FetchResult WeatherData) :
    MarkerNeutral s (fetchWeatherDataTry env s result).1 := by
  unfold fetchWeatherDataTry
  rcases result with m | ⟨ok, json⟩
  · exact ⟨rfl, rfl⟩
  · cases ok
    · exact ⟨rfl, rfl⟩
    · rcases json with m | (_ | d)
      · exact ⟨rfl, rfl⟩
      · cases hw : s.weatherDiv <;> simp only [hw] <;> exact ⟨rfl, rfl⟩
      · have h := renderWeatherData_neutral { s with currentWeatherData := some d } d
        exact ⟨h.1, h.2⟩

theorem fetchWeatherDataEnd_neutral (env : Env) (s : Page) (result : FetchResult WeatherData) :
    MarkerNeutral s (fetchWeatherDataEnd env s result).1 := by
  have h := fetchWeatherDataTry_neutral env s result
  unfold fetchWeatherDataEnd
  generalize fetchWeatherDataTry env s result = p at h
  rcases p with ⟨s1, _ | m⟩
  · exact h
  · exact ⟨h.1, h.2⟩

theorem setView_neutral (s : Page) (lat lng : JSNum) (zoom : Nat) :
    MarkerNeutral s (setView s lat lng zoom) := by
  refine ⟨rfl, ?_⟩
  unfold setView markerLayersOf
  cases s.map <;> rfl

theorem handleFormSubmit_neutral (env : Env) (s : Page) (now : Nat)
    (result : FetchResult ResponseProps) :
    MarkerNeutral s (handleFormSubmit env s now result) := by
  unfold handleFormSubmit
  by_cases h : SubmitConditions env s
  · rw [handleFormSubmitBegin_of_conditions env s now h]
    obtain ⟨_, _, _, _, _, hmk, hmap, _⟩ := handleFormSubmitEnd_frame env
      { s with
        submitBtn := s.submitBtn.map (fun _ =>
          (⟨true, "<i class=\"fas fa-spinner fa-spin\"></i> Submitting report..."⟩ : Button)),
        requests := s.requests ++ [submitRequest s now] }
      (match s.submitBtn with
       | some b => b.innerHTML
       | none => "") result
    exact ⟨hmk, by unfold markerLayersOf; rw [hmap]⟩
  · obtain ⟨message, validated, hb⟩ := handleFormSubmitBegin_of_not_conditions env s now h
    rw [hb]
    exact ⟨rfl, rfl⟩

theorem getCurrentLocationClick_neutral (s : Page) (supported : Bool) :
    MarkerNeutral s (getCurrentLocationClick s supported).1 := by
  unfold getCurrentLocationClick
  split
  · exact ⟨rfl, rfl⟩
  · split <;> exact ⟨rfl, rfl⟩

/-- The function `updateMarker` keeps the variable and the map in agreement. -/
theorem updateMarker_tracked (s : Page) (lat lng : JSNum) (h : MarkerTracked s) :
    MarkerTracked (updateMarker s lat lng) := by
  unfold updateMarker
  unfold MarkerTracked markerLayersOf at h ⊢
  cases hm : s.map with
  | none => simpa [hm] using h
  | some m =>
    cases hk : s.marker with
    | object id pos => simpa [hm, hk] using h
    | undefined =>
      rw [hm, hk] at h
      simp only [Option.map_some'] at h
      simp [h]
    | null =>
      rw [hm, hk] at h
      simp only [Option.map_some'] at h
      simp [h]

theorem handleFormReset_marker_map (env : Env) (s : Page) :
    (handleFormReset env s).marker
        = (match s.marker, s.map with
           | .object _ _, some _ => MarkerVar.null
           | k, _ => k)
    ∧ (handleFormReset env s).map
        = (match s.marker, s.map with
           | .object id _, some m =>
             some { m with markerLayers := m.markerLayers.filter (fun l => l != id),
                           center := defaultCenter, zoom := 5 }
           | _, mm => mm.map (fun (m : MapWidget) =>
               { m with center := defaultCenter, zoom := 5 })) := by
  cases hl : s.mediaLabel <;> cases hm : s.map <;> cases hk : s.marker <;>
    simp [handleFormReset, updateMediaLabel, updateSeverityDisplay, severityLabels, showAlert,
      hl, hm, hk]

/-- After `handleFormReset` on a page where the variable and the map agree,
the variable holds no marker object and the map has no marker layer. -/
theorem handleFormReset_marker (env : Env) (s : Page) (h : MarkerTracked s) :
    (handleFormReset env s).marker.truthy = false
    ∧ (∀ id pos, s.marker = .object id pos → (handleFormReset env s).marker = .null)
    ∧ (s.marker = .undefined → (handleFormReset env s).marker = .undefined)
    ∧ (∀ m, (handleFormReset env s).map = some m →
        m.markerLayers = [] ∧ m.center = defaultCenter ∧ m.zoom = 5)
    ∧ (handleFormReset env s).map.isSome = s.map.isSome := by
  obtain ⟨hmk, hmap⟩ := handleFormReset_marker_map env s
  unfold MarkerTracked markerLayersOf at h
  rw [hmk, hmap]
  cases hm : s.map with
  | none =>
    cases hk : s.marker with
    | object id pos => rw [hm, hk] at h; exact absurd h (fun x => x)
    | undefined => simp [MarkerVar.truthy]
    | null => simp [MarkerVar.truthy]
  | some m =>
    cases hk : s.marker with
    | object id pos =>
      rw [hm, hk] at h
      simp only [Option.map_some'] at h
      simp [MarkerVar.truthy, h]
    | undefined =>
      rw [hm, hk] at h
      simp only [Option.map_some'] at h
      simp [MarkerVar.truthy, h]
    | null =>
      rw [hm, hk] at h
      simp only [Option.map_some'] at h
      simp [MarkerVar.truthy, h]


theorem handleMapClick_tracked (env : Env) (s : Page) (lat lng : JSNum)
    (h : MarkerTracked s) : MarkerTracked (handleMapClick env s lat lng) := by
  have h1 := updateMarker_tracked s lat lng h
  unfold handleMapClick
  refine MarkerNeutral.tracked ?_ h1
  exact ((MarkerNeutral.trans (t := reverseGeocodeBegin env
      { updateMarker s lat lng with form :=
          { (updateMarker s lat lng).form with
            latitude := toFixed env lat 6, longitude := toFixed env lng 6 } } lat lng)
    ⟨rfl, rfl⟩ (fetchWeatherDataBegin_neutral env _ lat lng)).trans (showAlert_neutral _ _ _ _))

theorem geolocationSuccessBegin_tracked (env : Env) (s : Page) (originalText : String)
    (lat lng : JSNum) (h : MarkerTracked s) :
    MarkerTracked (geolocationSuccessBegin env s originalText lat lng).1 := by
  unfold geolocationSuccessBegin
  split
  · exact MarkerNeutral.tracked ⟨rfl, rfl⟩ h
  · have h1 := updateMarker_tracked _ lat lng ((setView_neutral s lat lng 13).tracked h)
    refine MarkerNeutral.tracked ?_ h1
    exact MarkerNeutral.trans (t := reverseGeocodeBegin env
      { updateMarker (setView s lat lng 13) lat lng with form :=
          { (updateMarker (setView s lat lng 13) lat lng).form with
            latitude := toFixed env lat 6, longitude := toFixed env lng 6 } } lat lng)
      ⟨rfl, rfl⟩ (fetchWeatherDataBegin_neutral env _ lat lng)

theorem searchLocationFound_tracked (env : Env) (s : Page) (hit : Option SearchHit)
    (h : MarkerTracked s) : MarkerTracked (searchLocationFound env s hit) := by
  unfold searchLocationFound
  split
  · exact MarkerNeutral.tracked ⟨rfl, rfl⟩ h
  · next result =>
    simp only
    split
    · exact MarkerNeutral.tracked ⟨rfl, rfl⟩ h
    · have h1 := updateMarker_tracked _ (env.parseFloat result.lat) (env.parseFloat result.lon)
        ((setView_neutral s (env.parseFloat result.lat) (env.parseFloat result.lon) 13).tracked h)
      split
      · exact MarkerNeutral.tracked ⟨rfl, rfl⟩ h1
      · refine MarkerNeutral.tracked ?_ h1
        exact MarkerNeutral.trans (t := _) ⟨rfl, rfl⟩ (fetchWeatherDataBegin_neutral env _ _ _)

theorem initializeMap_tracked (env : Env) (s : Page) (leafletAvailable : Bool)
    (hmap : s.map = none) (hmarker : s.marker = .undefined) :
    MarkerTracked (initializeMap env s leafletAvailable) := by
  have h0 : MarkerTracked { s with map := some ⟨defaultCenter, 5, []⟩ } := by
    simp [MarkerTracked, markerLayersOf, hmarker]
  unfold initializeMap
  cases leafletAvailable
  · simp [MarkerTracked, markerLayersOf, hmap, hmarker]
  · dsimp only
    generalize (if s.form.latitude = "" then JSNum.nan else env.parseFloat s.form.latitude)
      = preLat
    generalize (if s.form.longitude = "" then JSNum.nan else env.parseFloat s.form.longitude)
      = preLng
    simp only [Bool.not_true, Bool.false_eq_true, if_false]
    split
    · exact (fetchWeatherDataBegin_neutral env _ _ _).tracked
        (updateMarker_tracked _ _ _ ((setView_neutral _ _ _ 13).tracked h0))
    · exact h0

/-- On every page the handlers can reach, the variable `marker` and the marker
layers of the map agree. -/
theorem reachable_tracked (env : Env) (s : Page) (h : Reachable env s) : MarkerTracked s := by
  induction h with
  | load s leaflet hmap hmarker => exact initializeMap_tracked env s leaflet hmap hmarker
  | marker s lat lng _ ih => exact updateMarker_tracked s lat lng ih
  | click s lat lng _ ih => exact handleMapClick_tracked env s lat lng ih
  | search s hit _ ih => exact searchLocationFound_tracked env s hit ih
  | searchEnd s _ ih => exact MarkerNeutral.tracked ⟨rfl, rfl⟩ ih
  | geocoded s locationName _ ih =>
    cases locationName with
    | none => exact ih
    | some name => exact MarkerNeutral.tracked ⟨rfl, rfl⟩ ih
  | locate s supported _ ih => exact (getCurrentLocationClick_neutral s supported).tracked ih
  | located s originalText lat lng _ ih =>
    exact geolocationSuccessBegin_tracked env s originalText lat lng ih
  | locatedEnd s originalText _ ih => exact MarkerNeutral.tracked ⟨rfl, rfl⟩ ih
  | locateFailed s originalText code _ ih => exact MarkerNeutral.tracked ⟨rfl, rfl⟩ ih
  | weather s result _ ih => exact (fetchWeatherDataEnd_neutral env s result).tracked ih
  | media s picked _ ih => exact (mediaInputChange_neutral s picked).tracked ih
  | preview s file _ ih => exact MarkerNeutral.tracked ⟨rfl, rfl⟩ ih
  | remove s fileName _ ih => exact (removeMedia_neutral s fileName).tracked ih
  | submit s now result _ ih => exact (handleFormSubmit_neutral env s now result).tracked ih
  | reset s _ ih =>
    obtain ⟨htruthy, _, _, hlayers, hsome⟩ := handleFormReset_marker env s ih
    unfold MarkerTracked markerLayersOf
    cases hm : (handleFormReset env s).map with
    | none =>
      cases hk : (handleFormReset env s).marker with
      | object id pos => rw [hk] at htruthy; cases htruthy
      | undefined => simp
      | null => simp
    | some m =>
      have := (hlayers m hm).1
      cases hk : (handleFormReset env s).marker with
      | object id pos => rw [hk] at htruthy; cases htruthy
      | undefined => simp [this]
      | null => simp [this]

theorem freshPage_reachable (env : Env) : Reachable env freshPage :=
  Reachable.load { freshPage with map := none } true rfl rfl

theorem clickedPage_reachable : Reachable sampleEnv clickedPage :=
  Reachable.click freshPage (.fin 13) double_80_2 (freshPage_reachable sampleEnv)


/-! ### The user id of the posted form data -/

theorem formDataGet_formDataSet (name : String) (v : FormValue)
    (entries : List (String × FormValue)) :
    formDataGet name (formDataSet name v entries) = some v := by
  induction entries with
  | nil => simp [formDataSet, formDataGet]
  | cons e es ih =>
    unfold formDataSet
    by_cases he : e.1 = name
    · simp [he, formDataGet]
    · rw [if_neg he]
      unfold formDataGet at ih ⊢
      rw [List.find?_cons_of_neg _ (by simpa using he)]
      exact ih

theorem formDataGet_user_id_formDataOf (form : FormFields) (files : List File) :
    formDataGet "user_id" (formDataOf form files)
      = (form.others.find? (fun p => p.1 == "user_id")).map (fun p => FormValue.text p.2) := by
  have hfiles : ∀ l : List File, List.find? (fun e => e.1 == "user_id")
      (l.map (fun f => (("mediaFiles", FormValue.file f) : String × FormValue))) = none := by
    intro l
    induction l with
    | nil => rfl
    | cons f fs ih => simp [List.find?_cons]
  have hothers : ∀ l : List (String × String),
      List.find? (fun e => e.1 == "user_id")
        (l.map (fun p => ((p.1, FormValue.text p.2) : String × FormValue)))
      = (l.find? (fun p => p.1 == "user_id")).map
          (fun p => ((p.1, FormValue.text p.2) : String × FormValue)) := by
    intro l
    induction l with
    | nil => rfl
    | cons q qs ih =>
      by_cases hq : q.1 = "user_id"
      · simp [hq]
      · rw [List.map_cons, List.find?_cons_of_neg _ (by simpa using hq),
          List.find?_cons_of_neg _ (by simpa using hq)]
        exact ih
  unfold formDataGet formDataOf
  cases hw : form.weatherConditions <;> cases files <;>
    simp [List.find?_cons, List.find?_append, hothers, hfiles, Option.map_map,
      Function.comp_def]

theorem anonymous_ne_empty (now : Nat) : "anonymous_" ++ toString now ≠ "" := by
  intro h
  have := congrArg String.length h
  simp only [String.length_append] at this
  have h10 : "anonymous_".length = 10 := by decide
  have h0 : "".length = 0 := by decide
  omega

theorem submitBody_user_id (s : Page) (now : Nat) :
    formDataGet "user_id" (submitBody s now) = some (.text (expectedUserId s.form now)) := by
  unfold submitBody expectedUserId
  simp only
  have hget := formDataGet_user_id_formDataOf s.form s.mediaInputFiles
  cases hf : s.form.others.find? (fun p => p.1 == "user_id") with
  | none =>
    rw [hf] at hget
    simp only [Option.map_none'] at hget
    rw [hget]
    exact formDataGet_formDataSet _ _ _
  | some p =>
    rw [hf] at hget
    simp only [Option.map_some'] at hget
    rw [hget]
    simp only
    by_cases hv : p.2 = ""
    · rw [if_pos hv, if_pos hv]
      exact formDataGet_formDataSet _ _ _
    · rw [if_neg hv, if_neg hv]
      exact hget

/-- C11: when `handleFormSubmit` sends its POST, the `user_id` of the posted
form data is never empty: it is the value of the form's `user_id` field when
that field is set to a non-empty value, unchanged, and otherwise (no such
field, or an empty one) `anonymous_` followed by the decimal timestamp taken
at submission. -/
theorem handleFormSubmit_user_id (env : Env) (s : Page) (now : Nat)
    (result : FetchResult ResponseProps) (h : SubmitConditions env s) :
    (∃ body : List (String × FormValue),
      (handleFormSubmit env s now result).requests
        = s.requests ++ [⟨"POST", "http://127.0.0.1:8001/api/reports/submit", body⟩]
      ∧ formDataGet "user_id" body = some (.text (expectedUserId s.form now)))
    ∧ expectedUserId s.form now ≠ ""
    ∧ (∀ v : String, s.form.others.find? (fun p => p.1 == "user_id") = some ("user_id", v) →
        v ≠ "" → expectedUserId s.form now = v)
    ∧ (s.form.others.find? (fun p => p.1 == "user_id") = none
        ∨ s.form.others.find? (fun p => p.1 == "user_id") = some ("user_id", "") →
        expectedUserId s.form now = "anonymous_" ++ toString now) := by
  refine ⟨⟨submitBody s now, ?_, submitBody_user_id s now⟩, ?_, ?_, ?_⟩
  · simp only [handleFormSubmit, handleFormSubmitBegin_of_conditions env s now h]
    exact (handleFormSubmitEnd_frame env _ _ result).1
  · unfold expectedUserId
    split
    · next v _ =>
      split
      · exact anonymous_ne_empty now
      · assumption
    · exact anonymous_ne_empty now
  · intro v hv hne
    simp [expectedUserId, hv, hne]
  · rintro (hv | hv) <;> simp [expectedUserId, hv]

/-- Instance of C11: the page with a marker at `(13.0, 80.2)`, whose form has
no `user_id` field, submitted at time 1700000000000. -/
theorem handleFormSubmit_user_id_witness :
    ∃ body : List (String × FormValue),
      (handleFormSubmit sampleEnv clickedPage 1700000000000 okR1).requests
        = clickedPage.requests ++ [⟨"POST", "http://127.0.0.1:8001/api/reports/submit", body⟩]
      ∧ formDataGet "user_id" body = some (.text "anonymous_1700000000000") := by
  have h := handleFormSubmit_user_id sampleEnv clickedPage 1700000000000 okR1
    clickedPage_conditions
  have hid : expectedUserId clickedPage.form 1700000000000 = "anonymous_1700000000000" := by
    rw [clickedPage_form]; decide
  obtain ⟨body, hreq, hget⟩ := h.1
  exact ⟨body, hreq, by rw [hget, hid]⟩


/-- C12 (as stated, refuted): on the page as loaded, where no marker was ever
placed, `handleFormReset` leaves the variable `marker` undefined; it is not
`null`. -/
theorem handleFormReset_marker_counterexample :
    (handleFormReset sampleEnv freshPage).marker = MarkerVar.undefined
    ∧ (handleFormReset sampleEnv freshPage).marker ≠ MarkerVar.null := by
  have h := (handleFormReset_marker_map sampleEnv freshPage).1
  have h1 : (handleFormReset sampleEnv freshPage).marker = MarkerVar.undefined := h
  exact ⟨h1, by rw [h1]; decide⟩

/-- C12 (amended): after `handleFormReset`, from any page the handlers can
reach, the staged list is empty, no marker exists (the variable `marker` holds
no marker object: it is `null` when a marker existed and still `undefined`
when none was ever placed; no marker layer remains on the map), the weather
snapshot is `null`, and the map, on a page that has one, is at the default
centre `(20.5937, 78.9629)` at zoom 5. -/
theorem handleFormReset_clears (env : Env) (s : Page) (h : Reachable env s) :
    (handleFormReset env s).selectedFiles = []
    ∧ (handleFormReset env s).marker.truthy = false
    ∧ (∀ id pos, s.marker = .object id pos → (handleFormReset env s).marker = .null)
    ∧ (s.marker = .undefined → (handleFormReset env s).marker = .undefined)
    ∧ (∀ m, (handleFormReset env s).map = some m →
        m.markerLayers = [] ∧ m.center = defaultCenter ∧ m.zoom = 5)
    ∧ (handleFormReset env s).map.isSome = s.map.isSome
    ∧ (handleFormReset env s).currentWeatherData = none := by
  obtain ⟨h1, h2, h3, h4, h5⟩ := handleFormReset_marker env s (reachable_tracked env s h)
  refine ⟨handleFormReset_selectedFiles env s, h1, h2, h3, h4, h5, ?_⟩
  simp only [handleFormReset, showAlert]

/-- Instance of C12: the reset of the page with a marker at `(13.0, 80.2)`. -/
theorem handleFormReset_clears_witness :
    (handleFormReset sampleEnv clickedPage).selectedFiles = []
    ∧ (handleFormReset sampleEnv clickedPage).marker = .null
    ∧ (handleFormReset sampleEnv clickedPage).map = some ⟨defaultCenter, 5, []⟩
    ∧ (handleFormReset sampleEnv clickedPage).currentWeatherData = none := by
  have h := handleFormReset_clears sampleEnv clickedPage clickedPage_reachable
  have hmk : clickedPage.marker = .object 0 ⟨.fin 13, double_80_2⟩ := rfl
  refine ⟨h.1, h.2.2.1 _ _ hmk, ?_, h.2.2.2.2.2.2⟩
  have hsome := h.2.2.2.2.2.1
  cases hm : (handleFormReset sampleEnv clickedPage).map with
  | none => rw [hm] at hsome; exact absurd hsome (by decide)
  | some m =>
    obtain ⟨hl, hc, hz⟩ := h.2.2.2.2.1 m hm
    cases m
    simp only at hl hc hz
    rw [hl, hc, hz]

/-- C13 (the code at the failing input): a weather request that succeeds
writes the serialized data to the `weatherConditions` field; after a later
request that fails the variable `currentWeatherData` is `null` and the display
shows the placeholder, but the field still holds the earlier serialization,
and the body of a submission made then carries it. -/
theorem fetchWeatherData_failure_keeps_field :
    weatherFetched.form.weatherConditions = some sampleWeather.serialized
    ∧ weatherFetched.currentWeatherData = some sampleWeather
    ∧ weatherFailedAfterFetch.currentWeatherData = none
    ∧ weatherFailedAfterFetch.weatherDiv = some .unavailable
    ∧ weatherFailedAfterFetch.form.weatherConditions = some sampleWeather.serialized
    ∧ ("weatherConditions", FormValue.text sampleWeather.serialized)
        ∈ submitBody weatherFailedAfterFetch 1700000000000 := by
  refine ⟨rfl, rfl, rfl, rfl, rfl, ?_⟩
  exact mem_submitBody _ _ _ (by decide) (by decide)

/-- C14: on a page with the weather element, when the weather request is
rejected or answered with a response that is not OK, `fetchWeatherData` leaves
`currentWeatherData` at `null` whatever it was, leaves the element showing the
placeholder `Weather data temporarily unavailable`, and its promise resolves;
the promise resolves on every other outcome of the request as well. -/
theorem fetchWeatherData_fails_soft (env : Env) (s : Page) (lat lng : JSNum)
    (result : FetchResult WeatherData) (hdiv : s.weatherDiv ≠ none) :
    ((∃ m, result = .rejected m) ∨ (∃ json, result = .response false json) →
      (fetchWeatherData env s lat lng result).1.currentWeatherData = none
      ∧ (fetchWeatherData env s lat lng result).1.weatherDiv = some .unavailable)
    ∧ WeatherPanel.markup env .unavailable = some unavailableMarkup
    ∧ (∃ before after : String,
        unavailableMarkup = before ++ "Weather data temporarily unavailable" ++ after)
    ∧ (fetchWeatherData env s lat lng result).2 = .resolved := by
  obtain ⟨panel, hpanel⟩ := Option.ne_none_iff_exists'.mp hdiv
  refine ⟨?_, rfl, ⟨_, _, rfl⟩, ?_⟩
  · intro hfail
    simp only [fetchWeatherData, hpanel, fetchWeatherDataEnd, fetchWeatherDataBegin]
    rcases hfail with ⟨m, rfl⟩ | ⟨json, rfl⟩ <;>
      simp [fetchWeatherDataTry, fetchWeatherDataCatch]
  · simp only [fetchWeatherData, hpanel, fetchWeatherDataEnd]
    split <;> rfl

/-- Instance of C14: the page holding `sampleWeather` and a request answered
with a response that is not OK. -/
theorem fetchWeatherData_fails_soft_witness :
    weatherFailedAfterFetch.currentWeatherData = none
    ∧ weatherFailedAfterFetch.weatherDiv = some .unavailable
    ∧ (fetchWeatherData sampleEnv weatherFetched (.fin 14) (.fin 81)
        (.response false (.syntaxError "Unexpected token"))).2 = .resolved := by
  have h := fetchWeatherData_fails_soft sampleEnv weatherFetched (.fin 14) (.fin 81)
    (.response false (.syntaxError "Unexpected token")) (by decide)
  exact ⟨(h.1 (Or.inr ⟨_, rfl⟩)).1, (h.1 (Or.inr ⟨_, rfl⟩)).2, h.2.2.2⟩


theorem handleFormSubmitEnd_statusDiv_congr (env : Env) (s s1 : Page)
    (originalBtnText : String) (result : FetchResult ResponseProps)
    (h : s1.statusDiv = s.statusDiv) :
    (handleFormSubmitEnd env s1 originalBtnText result).statusDiv
      = (handleFormSubmitEnd env s originalBtnText result).statusDiv := by
  unfold handleFormSubmitEnd
  rcases result with m | ⟨ok, json⟩
  · simp [submissionFailed, showAlert, h]
  · cases ok
    · rcases json with m | (_ | d) <;> simp [submissionFailed, showAlert, h]
    · rcases json with m | (_ | d) <;> simp [submissionFailed, showAlert, h]

theorem handleFormSubmitBegin_weather (env : Env) (s : Page) (now : Nat)
    (weather : Option WeatherData) (panel : Option WeatherPanel) :
    handleFormSubmitBegin env { s with currentWeatherData := weather, weatherDiv := panel } now
      = ({ (handleFormSubmitBegin env s now).1 with
            currentWeatherData := weather, weatherDiv := panel },
          (handleFormSubmitBegin env s now).2) := by
  unfold handleFormSubmitBegin
  dsimp only
  split_ifs <;> rfl

/-- A weather request changes, of what the checks of `handleFormSubmit` read,
at most the `weatherConditions` field. -/
theorem fetchWeatherData_submit_inputs (env : Env) (s : Page) (lat lng : JSNum)
    (result : FetchResult WeatherData) :
    { (fetchWeatherData env s lat lng result).1.form with weatherConditions := none }
        = { s.form with weatherConditions := none }
    ∧ (fetchWeatherData env s lat lng result).1.marker = s.marker
    ∧ (fetchWeatherData env s lat lng result).1.mediaInputFiles = s.mediaInputFiles := by
  unfold fetchWeatherData
  cases hw : s.weatherDiv with
  | none => exact ⟨rfl, rfl, rfl⟩
  | some panel =>
    rcases result with m | ⟨ok, json⟩
    · simp [fetchWeatherDataEnd, fetchWeatherDataBegin, hw, fetchWeatherDataTry,
        fetchWeatherDataCatch]
    · cases ok
      · simp [fetchWeatherDataEnd, fetchWeatherDataBegin, hw, fetchWeatherDataTry,
          fetchWeatherDataCatch]
      · rcases json with m | (_ | d) <;>
          simp [fetchWeatherDataEnd, fetchWeatherDataBegin, hw, fetchWeatherDataTry,
            fetchWeatherDataCatch, renderWeatherData]

theorem handleFormSubmitBegin_sends_iff (env : Env) (s : Page) (now : Nat) :
    (handleFormSubmitBegin env s now).2.isSome = true ↔ SubmitConditions env s := by
  by_cases h : SubmitConditions env s
  · rw [handleFormSubmitBegin_of_conditions env s now h]
    simp [h]
  · obtain ⟨message, validated, hb⟩ := handleFormSubmitBegin_of_not_conditions env s now h
    rw [hb]
    simp [h]

/-- C15: two pages that differ only in `currentWeatherData` and in what the
weather element shows get the same treatment from `handleFormSubmit`: the
same check decides (the same warning, or none), the same decision to send the
POST is taken, the same request is sent and the status panel ends the same.
Where the validity of the form does not read the `weatherConditions` field,
the decision to send the POST is also the same after a weather request that
succeeded and after one that failed. -/
theorem handleFormSubmit_ignores_weather (env : Env) (s : Page) (now : Nat)
    (result : FetchResult ResponseProps) (weather : Option WeatherData)
    (panel : Option WeatherPanel) :
    (handleFormSubmitBegin env { s with currentWeatherData := weather, weatherDiv := panel }
        now).2 = (handleFormSubmitBegin env s now).2
    ∧ (handleFormSubmitBegin env { s with currentWeatherData := weather, weatherDiv := panel }
        now).1.statusDiv = (handleFormSubmitBegin env s now).1.statusDiv
    ∧ (handleFormSubmit env { s with currentWeatherData := weather, weatherDiv := panel }
        now result).requests = (handleFormSubmit env s now result).requests
    ∧ (handleFormSubmit env { s with currentWeatherData := weather, weatherDiv := panel }
        now result).statusDiv = (handleFormSubmit env s now result).statusDiv
    ∧ ((∀ f w files, env.checkValidity { f with weatherConditions := w } files
          = env.checkValidity f files) →
        ∀ (lat lng : JSNum) (r1 r2 : FetchResult WeatherData),
          (handleFormSubmitBegin env (fetchWeatherData env s lat lng r1).1 now).2.isSome
            = (handleFormSubmitBegin env (fetchWeatherData env s lat lng r2).1 now).2.isSome) := by
  have e := handleFormSubmitBegin_weather env s now weather panel
  refine ⟨by rw [e], by rw [e], ?_, ?_, ?_⟩
  rotate_left 2
  · intro hhidden lat lng r1 r2
    have key : ∀ r : FetchResult WeatherData,
        SubmitConditions env (fetchWeatherData env s lat lng r).1 ↔ SubmitConditions env s := by
      intro r
      obtain ⟨hform, hmk, hfiles⟩ := fetchWeatherData_submit_inputs env s lat lng r
      have hlat := congrArg FormFields.latitude hform
      have hlng := congrArg FormFields.longitude hform
      have hvalid : env.checkValidity (fetchWeatherData env s lat lng r).1.form
          (fetchWeatherData env s lat lng r).1.mediaInputFiles
          = env.checkValidity s.form s.mediaInputFiles := by
        rw [← hhidden (fetchWeatherData env s lat lng r).1.form none, hform, hhidden, hfiles]
      simp only at hlat hlng
      unfold SubmitConditions
      rw [hvalid, hmk, hlat, hlng]
    rw [Bool.eq_iff_iff, handleFormSubmitBegin_sends_iff, handleFormSubmitBegin_sends_iff,
      key r1, key r2]
  · unfold handleFormSubmit
    rw [e]
    rcases handleFormSubmitBegin env s now with ⟨p, _ | orig⟩
    · rfl
    · show (handleFormSubmitEnd env _ orig result).requests
        = (handleFormSubmitEnd env p orig result).requests
      rw [(handleFormSubmitEnd_frame env _ orig result).1,
        (handleFormSubmitEnd_frame env p orig result).1]
  · unfold handleFormSubmit
    rw [e]
    rcases handleFormSubmitBegin env s now with ⟨p, _ | orig⟩
    · rfl
    · exact handleFormSubmitEnd_statusDiv_congr env p _ orig result rfl


theorem fetchWeatherDataBegin_frame (env : Env) (s : Page) (lat lng : JSNum) :
    (fetchWeatherDataBegin env s lat lng).marker = s.marker
    ∧ (fetchWeatherDataBegin env s lat lng).map = s.map
    ∧ (fetchWeatherDataBegin env s lat lng).form = s.form := by
  unfold fetchWeatherDataBegin
  split <;> exact ⟨rfl, rfl, rfl⟩

/-- What `updateMarker` does on a page with a map: an existing marker object
is moved and the layers stay; without one a marker object is created at the
position and added as a layer. -/
theorem updateMarker_on_map (s : Page) (lat lng : JSNum) (m : MapWidget) (hm : s.map = some m) :
    (∀ id pos, s.marker = .object id pos →
      (updateMarker s lat lng).marker = .object id ⟨lat, lng⟩
      ∧ (updateMarker s lat lng).map = some m)
    ∧ (s.marker.truthy = false →
      (updateMarker s lat lng).marker = .object s.nextLayerId ⟨lat, lng⟩
      ∧ (updateMarker s lat lng).map
          = some { m with markerLayers := m.markerLayers ++ [s.nextLayerId] }) := by
  constructor
  · intro id pos hk
    simp [updateMarker, hm, hk]
  · intro hk
    cases hmk : s.marker with
    | object id pos => rw [hmk] at hk; cases hk
    | undefined => simp [updateMarker, hm, hmk]
    | null => simp [updateMarker, hm, hmk]

/-- C16: the success callback of the device location rejects a position for
which `isNearIndianCoast` is false: a warning is shown, the marker, the map,
the form fields and the weather element are unchanged, no request is started
and the callback returns. For a position inside the box the latitude and
longitude fields are set from it with six decimals and, on a page with a map,
the view moves there at zoom 13 and the variable `marker` holds a marker object
at the position, which on a reachable page is the one marker layer of the
map. -/
theorem geolocationSuccess_checks_bounds (env : Env) (s : Page) (originalText : String)
    (lat lng : JSNum) :
    (isNearIndianCoast lat lng = false →
      (geolocationSuccessBegin env s originalText lat lng).1.statusDiv
          = .alert ⟨"Please select a location near the Indian coastline for ocean hazard reporting",
              "warning", 5000⟩ :: s.statusDiv
      ∧ (geolocationSuccessBegin env s originalText lat lng).1.marker = s.marker
      ∧ (geolocationSuccessBegin env s originalText lat lng).1.map = s.map
      ∧ (geolocationSuccessBegin env s originalText lat lng).1.form = s.form
      ∧ (geolocationSuccessBegin env s originalText lat lng).1.requests = s.requests
      ∧ (geolocationSuccessBegin env s originalText lat lng).1.weatherDiv = s.weatherDiv
      ∧ (geolocationSuccessBegin env s originalText lat lng).2 = false)
    ∧ (isNearIndianCoast lat lng = true →
      (geolocationSuccessBegin env s originalText lat lng).1.form.latitude = toFixed env lat 6
      ∧ (geolocationSuccessBegin env s originalText lat lng).1.form.longitude
          = toFixed env lng 6
      ∧ (∀ m, s.map = some m →
          ∃ id layers,
            (geolocationSuccessBegin env s originalText lat lng).1.marker
              = .object id ⟨lat, lng⟩
            ∧ (geolocationSuccessBegin env s originalText lat lng).1.map
              = some ⟨⟨lat, lng⟩, 13, layers⟩
            ∧ (Reachable env s → layers = [id]))) := by
  constructor
  · intro hout
    simp [geolocationSuccessBegin, hout, showAlert]
  · intro hin
    simp only [geolocationSuccessBegin, hin, Bool.not_true, Bool.false_eq_true, if_false]
    obtain ⟨hmk, hmap, hform⟩ := fetchWeatherDataBegin_frame env
      (reverseGeocodeBegin env
        { updateMarker (setView s lat lng 13) lat lng with form :=
            { (updateMarker (setView s lat lng 13) lat lng).form with
              latitude := toFixed env lat 6, longitude := toFixed env lng 6 } } lat lng) lat lng
    rw [hmk, hmap, hform]
    refine ⟨rfl, rfl, ?_⟩
    intro m hm
    have hsv : (setView s lat lng 13).map = some ⟨⟨lat, lng⟩, 13, m.markerLayers⟩ := by
      simp [setView, hm]
    obtain ⟨hmove, hnew⟩ := updateMarker_on_map (setView s lat lng 13) lat lng _ hsv
    show ∃ id layers, (updateMarker (setView s lat lng 13) lat lng).marker = _
      ∧ (updateMarker (setView s lat lng 13) lat lng).map = _ ∧ _
    cases hk : s.marker with
    | object id pos =>
      obtain ⟨h1, h2⟩ := hmove id pos hk
      refine ⟨id, m.markerLayers, h1, h2, ?_⟩
      intro hr
      have ht := reachable_tracked env s hr
      simpa [MarkerTracked, markerLayersOf, hk, hm] using ht
    | undefined =>
      obtain ⟨h1, h2⟩ := hnew (by show s.marker.truthy = false; rw [hk]; rfl)
      refine ⟨s.nextLayerId, m.markerLayers ++ [s.nextLayerId], h1, h2, ?_⟩
      intro hr
      have ht := reachable_tracked env s hr
      have : m.markerLayers = [] := by
        simpa [MarkerTracked, markerLayersOf, hk, hm] using ht
      simp [this]
    | null =>
      obtain ⟨h1, h2⟩ := hnew (by show s.marker.truthy = false; rw [hk]; rfl)
      refine ⟨s.nextLayerId, m.markerLayers ++ [s.nextLayerId], h1, h2, ?_⟩
      intro hr
      have ht := reachable_tracked env s hr
      have : m.markerLayers = [] := by
        simpa [MarkerTracked, markerLayersOf, hk, hm] using ht
      simp [this]

/-- Instance of C16: on the fresh page the position `(0, 0)` changes neither
the form nor the marker, the position `(13.0, 80.2)` sets the two fields. -/
theorem geolocationSuccess_checks_bounds_witness :
    (geolocationSuccessBegin sampleEnv freshPage "Use My Location" (.fin 0) (.fin 0)).1.form
        = freshPage.form
    ∧ (geolocationSuccessBegin sampleEnv freshPage "Use My Location" (.fin 0) (.fin 0)).1.marker
        = .undefined
    ∧ (geolocationSuccessBegin sampleEnv freshPage "Use My Location" (.fin 13)
        double_80_2).1.form.latitude = "13.000000"
    ∧ (geolocationSuccessBegin sampleEnv freshPage "Use My Location" (.fin 13)
        double_80_2).1.form.longitude = "80.200000" := by
  have hout := (geolocationSuccess_checks_bounds sampleEnv freshPage "Use My Location"
    (.fin 0) (.fin 0)).1 (by decide)
  have hin := (geolocationSuccess_checks_bounds sampleEnv freshPage "Use My Location"
    (.fin 13) double_80_2).2 ((isNearIndianCoast_box_of_fin 13 _).mpr (by norm_num))
  refine ⟨hout.2.2.2.1, hout.2.1, ?_, ?_⟩
  · rw [hin.1, toFixed_13]
  · rw [hin.2.1, toFixed_80_2]


/-- C17: on every page the handlers can reach, the map has at most one marker
layer. There `updateMarker` moves the existing marker object to the new
position and leaves the layers as they are, or, when the variable holds no
marker object, creates one at the position as the only layer; after
`handleFormReset` the map has no marker layer. -/
theorem at_most_one_marker_layer (env : Env) (s : Page) (h : Reachable env s) :
    (∀ m, s.map = some m → m.markerLayers.length ≤ 1)
    ∧ (∀ lat lng m id pos, s.map = some m → s.marker = .object id pos →
        (updateMarker s lat lng).marker = .object id ⟨lat, lng⟩
        ∧ (updateMarker s lat lng).map = some m)
    ∧ (∀ lat lng m, s.map = some m → s.marker.truthy = false →
        ∃ id, (updateMarker s lat lng).marker = .object id ⟨lat, lng⟩
          ∧ (updateMarker s lat lng).map = some { m with markerLayers := [id] })
    ∧ (∀ m, (handleFormReset env s).map = some m → m.markerLayers = []) := by
  have ht := reachable_tracked env s h
  refine ⟨?_, ?_, ?_, ?_⟩
  · intro m hm
    unfold MarkerTracked markerLayersOf at ht
    rw [hm] at ht
    cases hk : s.marker with
    | object id pos =>
      rw [hk] at ht
      simp only [Option.map_some'] at ht
      simp [ht]
    | undefined =>
      rw [hk] at ht
      simp only [Option.map_some'] at ht
      simp [ht]
    | null =>
      rw [hk] at ht
      simp only [Option.map_some'] at ht
      simp [ht]
  · intro lat lng m id pos hm hk
    exact (updateMarker_on_map s lat lng m hm).1 id pos hk
  · intro lat lng m hm hk
    obtain ⟨h1, h2⟩ := (updateMarker_on_map s lat lng m hm).2 hk
    have hempty : m.markerLayers = [] := by
      unfold MarkerTracked markerLayersOf at ht
      rw [hm] at ht
      cases hmk : s.marker with
      | object id pos => rw [hmk] at hk; cases hk
      | undefined => rw [hmk] at ht; simpa using ht
      | null => rw [hmk] at ht; simpa using ht
    exact ⟨s.nextLayerId, h1, by rw [h2, hempty]; rfl⟩
  · intro m hm
    exact ((handleFormReset_marker env s ht).2.2.2.1 m hm).1

/-- Instance of C17: the fresh page after two map clicks has one marker layer,
the marker at the second position. -/
theorem at_most_one_marker_layer_witness :
    (∀ m, (handleMapClick sampleEnv clickedPage (.fin 14) (.fin 81)).map = some m →
        m.markerLayers.length ≤ 1)
    ∧ (handleMapClick sampleEnv clickedPage (.fin 14) (.fin 81)).marker
        = .object 0 ⟨.fin 14, .fin 81⟩ :=
  ⟨(at_most_one_marker_layer sampleEnv _
      (Reachable.click clickedPage (.fin 14) (.fin 81) clickedPage_reachable)).1, rfl⟩

/-- C18 (as stated, refuted): when the `fetch` of the POST is rejected with
the message `Failed to fetch`, the alert reads `Submission failed: Failed to
fetch`, not the generic text the specification words for a failure without a
server message. -/
theorem handleFormSubmit_failure_text_counterexample :
    (handleFormSubmit sampleEnv clickedPage 1700000000000
        (.rejected "Failed to fetch")).statusDiv
      = .alert ⟨"Submission failed: Failed to fetch", "danger", 5000⟩ :: clickedPage.statusDiv
    ∧ expectedFailureText sampleEnv (.rejected "Failed to fetch")
      = "Submission failed: Failed to submit report"
    ∧ "Submission failed: Failed to fetch"
      ≠ expectedFailureText sampleEnv (.rejected "Failed to fetch") := by
  refine ⟨?_, rfl, by decide⟩
  simp only [handleFormSubmit,
    handleFormSubmitBegin_of_conditions sampleEnv clickedPage 1700000000000
      clickedPage_conditions]
  rfl

/-- C18 (amended): when the checks pass and the POST fails, the danger alert
is the first child of the status panel and reads `Submission failed: `
followed, for a response that is not OK, by the `detail` of the parsed body
converted to a string if it is truthy, otherwise by its `message` converted to
a string if that is truthy, otherwise (also when the body is not parseable
JSON) by `Failed to submit report`; and, when the `fetch` itself is rejected,
by the message of that error. -/
theorem handleFormSubmit_failure_text (env : Env) (s : Page) (now : Nat)
    (result : FetchResult ResponseProps) (h : SubmitConditions env s) :
    (∀ m, result = .rejected m →
      (handleFormSubmit env s now result).statusDiv
        = .alert ⟨"Submission failed: " ++ m, "danger", 5000⟩ :: s.statusDiv)
    ∧ (∀ m, result = .response false (.syntaxError m) →
      (handleFormSubmit env s now result).statusDiv
        = .alert ⟨"Submission failed: Failed to submit report", "danger", 5000⟩ :: s.statusDiv)
    ∧ (∀ body, result = .response false (.parsed (some body)) →
      (handleFormSubmit env s now result).statusDiv
        = .alert ⟨"Submission failed: " ++
            (if body.detail.truthy then body.detail.toStr env
             else if body.message.truthy then body.message.toStr env
             else "Failed to submit report"), "danger", 5000⟩ :: s.statusDiv
      ∧ (handleFormSubmit env s now result).statusDiv
        = .alert ⟨expectedFailureText env result, "danger", 5000⟩ :: s.statusDiv) := by
  refine ⟨?_, ?_, ?_⟩
  · rintro m rfl
    simp only [handleFormSubmit, handleFormSubmitBegin_of_conditions env s now h]
    rfl
  · rintro m rfl
    simp only [handleFormSubmit, handleFormSubmitBegin_of_conditions env s now h]
    rfl
  · rintro body rfl
    simp only [handleFormSubmit, handleFormSubmitBegin_of_conditions env s now h]
    constructor
    · show StatusNode.alert ⟨"Submission failed: " ++
          (body.detail.or (body.message.or (.str "Failed to submit report"))).toStr env,
          "danger", 5000⟩ :: s.statusDiv = _
      unfold JSVal.or
      by_cases hd : body.detail.truthy = true
      · simp [hd]
      · by_cases hm : body.message.truthy = true
        · simp [hd, hm]
        · simp [hd, hm, JSVal.toStr]
    · rfl

/-- Instance of C18 (amended): a response that is not OK whose body has the
detail `Invalid hazard type`. -/
theorem handleFormSubmit_failure_text_witness :
    (handleFormSubmit sampleEnv clickedPage 1700000000000
        (.response false (.parsed (some { emptyObject with
          detail := .str "Invalid hazard type" })))).statusDiv
      = .alert ⟨"Submission failed: Invalid hazard type", "danger", 5000⟩
          :: clickedPage.statusDiv :=
  ((handleFormSubmit_failure_text sampleEnv clickedPage 1700000000000 _
    clickedPage_conditions).2.2 _ rfl).1

end ReportJs

namespace MainJs

open RegularExpression

/-! ### The two validators -/

theorem star_rmatch_of_forall {α : Type} [DecidableEq α] (P : RegularExpression α)
    (x : List α) (h : ∀ k ∈ x, P.rmatch [k] = true) : (star P).rmatch x = true := by
  rw [star_rmatch_iff]
  refine ⟨x.map (fun k => [k]), ?_, ?_⟩
  · induction x with
    | nil => rfl
    | cons k ks ih =>
      simp only [List.map_cons, List.flatten_cons, List.singleton_append]
      rw [← ih (fun j hj => h j (List.mem_cons_of_mem _ hj))]
  · intro t ht
    obtain ⟨k, hk, rfl⟩ := List.mem_map.mp ht
    exact ⟨by simp, h k hk⟩

theorem notSpaceAt_rmatch (x : List EmailClass) :
    notSpaceAt.rmatch x = true ↔ x = [.dot] ∨ x = [.other] := by
  unfold notSpaceAt
  rw [add_rmatch_iff, char_rmatch_iff, char_rmatch_iff]

theorem oneOrMore_notSpaceAt_rmatch (x : List EmailClass) :
    (oneOrMore notSpaceAt).rmatch x = true ↔
      x ≠ [] ∧ ∀ k ∈ x, k = EmailClass.dot ∨ k = EmailClass.other := by
  unfold oneOrMore
  rw [mul_rmatch_iff]
  constructor
  · rintro ⟨t, u, rfl, ht, hu⟩
    rw [notSpaceAt_rmatch] at ht
    rw [star_rmatch_iff] at hu
    obtain ⟨S, rfl, hS⟩ := hu
    have hall : ∀ k ∈ S.flatten, k = EmailClass.dot ∨ k = EmailClass.other := by
      intro k hk
      obtain ⟨l, hl, hkl⟩ := List.mem_flatten.mp hk
      have := (notSpaceAt_rmatch l).mp (hS l hl).2
      rcases this with rfl | rfl <;> simp at hkl <;> simp [hkl]
    constructor
    · rcases ht with rfl | rfl <;> simp
    · intro k hk
      rcases List.mem_append.mp hk with hk | hk
      · rcases ht with rfl | rfl <;> simp at hk <;> simp [hk]
      · exact hall k hk
  · rintro ⟨hne, hall⟩
    cases x with
    | nil => exact absurd rfl hne
    | cons k ks =>
      refine ⟨[k], ks, rfl, ?_, ?_⟩
      · rw [notSpaceAt_rmatch]
        rcases hall k (List.mem_cons_self _ _) with rfl | rfl <;> simp
      · apply star_rmatch_of_forall
        intro j hj
        rw [notSpaceAt_rmatch]
        rcases hall j (List.mem_cons_of_mem _ hj) with rfl | rfl <;> simp

theorem emailRegex_rmatch (x : List EmailClass) :
    emailRegex.rmatch x = true ↔
      ∃ a b c : List EmailClass, x = a ++ EmailClass.at :: (b ++ EmailClass.dot :: c)
        ∧ (oneOrMore notSpaceAt).rmatch a = true
        ∧ (oneOrMore notSpaceAt).rmatch b = true
        ∧ (oneOrMore notSpaceAt).rmatch c = true := by
  unfold emailRegex
  constructor
  · intro h
    obtain ⟨a, r1, rfl, ha, h1⟩ := (mul_rmatch_iff _ _ _).mp h
    obtain ⟨t1, r2, rfl, ht1, h2⟩ := (mul_rmatch_iff _ _ _).mp h1
    obtain ⟨b, r3, rfl, hb, h3⟩ := (mul_rmatch_iff _ _ _).mp h2
    obtain ⟨t2, c, rfl, ht2, hc⟩ := (mul_rmatch_iff _ _ _).mp h3
    rw [char_rmatch_iff] at ht1 ht2
    subst ht1 ht2
    exact ⟨a, b, c, by simp, ha, hb, hc⟩
  · rintro ⟨a, b, c, rfl, ha, hb, hc⟩
    refine (mul_rmatch_iff _ _ _).mpr ⟨a, _, rfl, ha, ?_⟩
    refine (mul_rmatch_iff _ _ _).mpr ⟨[EmailClass.at], _, rfl, (char_rmatch_iff _ _).mpr rfl, ?_⟩
    refine (mul_rmatch_iff _ _ _).mpr ⟨b, _, rfl, hb, ?_⟩
    exact (mul_rmatch_iff _ _ _).mpr ⟨[EmailClass.dot], c, rfl, (char_rmatch_iff _ _).mpr rfl, hc⟩

theorem emailClass_eq_at (c : Char) : emailClass c = .at ↔ c = '@' := by
  unfold emailClass
  constructor
  · intro h
    split_ifs at h with h1 h2 h3
    exact h2
  · rintro rfl
    decide

theorem emailClass_eq_dot (c : Char) : emailClass c = .dot ↔ c = '.' := by
  unfold emailClass
  constructor
  · intro h
    split_ifs at h with h1 h2 h3
    exact h3
  · rintro rfl
    decide

theorem emailClass_dot_or_other (c : Char) :
    (emailClass c = .dot ∨ emailClass c = .other) ↔ isWhiteSpace c = false ∧ c ≠ '@' := by
  unfold emailClass
  split_ifs with h1 h2 h3 <;> simp_all

theorem oneOrMore_notSpaceAt_map (l : List Char) :
    (oneOrMore notSpaceAt).rmatch (l.map emailClass) = true ↔
      l ≠ [] ∧ ∀ c ∈ l, isWhiteSpace c = false ∧ c ≠ '@' := by
  rw [oneOrMore_notSpaceAt_rmatch]
  constructor
  · rintro ⟨hne, hall⟩
    refine ⟨by simpa using hne, fun c hc => ?_⟩
    exact (emailClass_dot_or_other c).mp (hall _ (List.mem_map_of_mem _ hc))
  · rintro ⟨hne, hall⟩
    refine ⟨by simpa using hne, fun k hk => ?_⟩
    obtain ⟨c, hc, rfl⟩ := List.mem_map.mp hk
    exact (emailClass_dot_or_other c).mpr (hall c hc)

/-- C19: `isValidEmail(s)` is true exactly when `s` has no white space
character, has exactly one `@` (it splits into a part before and a part after
the `@`, neither holding an `@`), the part before is not empty, and the part
after holds a `.` with at least one character before it and at least one
after it. -/
theorem isValidEmail_iff (s : String) :
    isValidEmail s = true ↔
      (∀ c ∈ s.toList, isWhiteSpace c = false)
      ∧ ∃ before after : List Char, s.toList = before ++ '@' :: after
          ∧ '@' ∉ before ∧ '@' ∉ after ∧ before ≠ []
          ∧ ∃ B C : List Char, after = B ++ '.' :: C ∧ B ≠ [] ∧ C ≠ [] := by
  unfold isValidEmail
  rw [emailRegex_rmatch]
  constructor
  · rintro ⟨a, b, c, hx, ha, hb, hc⟩
    obtain ⟨l1, l2, hs, rfl, h2⟩ := List.map_eq_append_iff.mp hx
    obtain ⟨ch, l3, rfl, hch, h3⟩ := List.map_eq_cons_iff.mp h2
    obtain ⟨l4, l5, rfl, rfl, h5⟩ := List.map_eq_append_iff.mp h3
    obtain ⟨ch2, l6, rfl, hch2, rfl⟩ := List.map_eq_cons_iff.mp h5
    rw [emailClass_eq_at] at hch
    rw [emailClass_eq_dot] at hch2
    subst hch hch2
    rw [oneOrMore_notSpaceAt_map] at ha hb hc
    have hdot : isWhiteSpace '.' = false ∧ '.' ≠ '@' := by decide
    have hat : isWhiteSpace '@' = false := by decide
    refine ⟨?_, l1, l4 ++ '.' :: l6, hs, ?_, ?_, ha.1, l4, l6, rfl, hb.1, hc.1⟩
    · intro c hc'
      rw [hs] at hc'
      simp only [List.mem_append, List.mem_cons] at hc'
      rcases hc' with h | rfl | h | rfl | h
      · exact (ha.2 c h).1
      · exact hat
      · exact (hb.2 c h).1
      · exact hdot.1
      · exact (hc.2 c h).1
    · intro h
      exact (ha.2 _ h).2 rfl
    · intro h
      simp only [List.mem_append, List.mem_cons] at h
      rcases h with h | h | h
      · exact (hb.2 _ h).2 rfl
      · exact hdot.2 h.symm
      · exact (hc.2 _ h).2 rfl
  · rintro ⟨hws, before, after, hs, hb1, hb2, hne, B, C, rfl, hB, hC⟩
    have hmem : ∀ c, c ∈ before ∨ c ∈ B ∨ c ∈ C → isWhiteSpace c = false := by
      intro c hc
      apply hws
      rw [hs]
      simp only [List.mem_append, List.mem_cons]
      tauto
    refine ⟨before.map emailClass, B.map emailClass, C.map emailClass, ?_, ?_, ?_, ?_⟩
    · rw [hs]
      simp [(emailClass_eq_at '@').mpr rfl, (emailClass_eq_dot '.').mpr rfl]
    · rw [oneOrMore_notSpaceAt_map]
      exact ⟨hne, fun c hc => ⟨hmem c (Or.inl hc), fun h => hb1 (h ▸ hc)⟩⟩
    · rw [oneOrMore_notSpaceAt_map]
      exact ⟨hB, fun c hc => ⟨hmem c (Or.inr (Or.inl hc)),
        fun h => hb2 (by rw [← h]; simp [hc])⟩⟩
    · rw [oneOrMore_notSpaceAt_map]
      exact ⟨hC, fun c hc => ⟨hmem c (Or.inr (Or.inr hc)),
        fun h => hb2 (by rw [← h]; simp [hc])⟩⟩

theorem pow_char_rmatch (d : PhoneClass) (n : Nat) (x : List PhoneClass) :
    (char d ^ n).rmatch x = true ↔ x = List.replicate n d := by
  induction n generalizing x with
  | zero => exact one_rmatch_iff x
  | succ n ih =>
    show ((char d ^ n) * char d).rmatch x = true ↔ _
    rw [mul_rmatch_iff, List.replicate_succ']
    constructor
    · rintro ⟨t, u, rfl, ht, hu⟩
      rw [(ih t).mp ht, (char_rmatch_iff d u).mp hu]
    · intro h
      exact ⟨List.replicate n d, [d], h, (ih _).mpr rfl, (char_rmatch_iff d _).mpr rfl⟩

theorem optional_char_rmatch (d : PhoneClass) (x : List PhoneClass) :
    (optional (char d)).rmatch x = true ↔ x = [] ∨ x = [d] := by
  unfold optional
  rw [add_rmatch_iff, one_rmatch_iff, char_rmatch_iff]

theorem pow_optional_char_rmatch (d : PhoneClass) (n : Nat) (x : List PhoneClass) :
    (optional (char d) ^ n).rmatch x = true ↔ ∃ k, k ≤ n ∧ x = List.replicate k d := by
  induction n generalizing x with
  | zero =>
    show rmatch 1 x = true ↔ _
    rw [one_rmatch_iff]
    constructor
    · rintro rfl
      exact ⟨0, le_refl _, rfl⟩
    · rintro ⟨k, hk, rfl⟩
      have : k = 0 := by omega
      subst this
      rfl
  | succ n ih =>
    show ((optional (char d) ^ n) * optional (char d)).rmatch x = true ↔ _
    rw [mul_rmatch_iff]
    constructor
    · rintro ⟨t, u, rfl, ht, hu⟩
      obtain ⟨k, hk, rfl⟩ := (ih t).mp ht
      rcases (optional_char_rmatch d u).mp hu with rfl | rfl
      · exact ⟨k, by omega, by simp⟩
      · exact ⟨k + 1, by omega, (List.replicate_succ' k d).symm⟩
    · rintro ⟨k, hk, rfl⟩
      by_cases hkn : k ≤ n
      · exact ⟨List.replicate k d, [], by simp, (ih _).mpr ⟨k, hkn, rfl⟩,
          (optional_char_rmatch d _).mpr (Or.inl rfl)⟩
      · have hk' : k = n + 1 := by omega
        subst hk'
        exact ⟨List.replicate n d, [d], List.replicate_succ' n d,
          (ih _).mpr ⟨n, le_refl _, rfl⟩, (optional_char_rmatch d _).mpr (Or.inr rfl)⟩

theorem phoneRegex_rmatch (x : List PhoneClass) :
    phoneRegex.rmatch x = true ↔
      ∃ k, 10 ≤ k ∧ k ≤ 15 ∧
        (x = List.replicate k .digit ∨ x = .plus :: List.replicate k .digit) := by
  unfold phoneRegex
  rw [mul_rmatch_iff]
  constructor
  · rintro ⟨t, u, rfl, ht, hu⟩
    obtain ⟨v, w, rfl, hv, hw⟩ := (mul_rmatch_iff _ _ _).mp hu
    rw [pow_char_rmatch] at hv
    obtain ⟨j, hj, rfl⟩ := (pow_optional_char_rmatch _ _ _).mp hw
    subst hv
    refine ⟨10 + j, by omega, by omega, ?_⟩
    rcases (optional_char_rmatch _ t).mp ht with rfl | rfl
    · left
      rw [List.nil_append, List.append_replicate_replicate]
    · right
      rw [List.append_replicate_replicate]
      rfl
  · rintro ⟨k, h10, h15, hx⟩
    have hsplit : List.replicate k PhoneClass.digit
        = List.replicate 10 .digit ++ List.replicate (k - 10) .digit := by
      rw [List.append_replicate_replicate]
      congr 1
      omega
    have hdigits : ((char PhoneClass.digit) ^ 10 * optional (char PhoneClass.digit) ^ 5).rmatch
        (List.replicate k .digit) = true :=
      (mul_rmatch_iff _ _ _).mpr ⟨_, _, hsplit, (pow_char_rmatch _ _ _).mpr rfl,
        (pow_optional_char_rmatch _ _ _).mpr ⟨k - 10, by omega, rfl⟩⟩
    rcases hx with rfl | rfl
    · exact ⟨[], _, rfl, (optional_char_rmatch _ _).mpr (Or.inl rfl), hdigits⟩
    · exact ⟨[.plus], _, rfl, (optional_char_rmatch _ _).mpr (Or.inr rfl), hdigits⟩

theorem phoneClass_eq_digit (c : Char) : phoneClass c = .digit ↔ c.isDigit = true := by
  unfold phoneClass
  constructor
  · intro h
    split_ifs at h with h1 h2
    exact h2
  · intro h
    have hne : c ≠ '+' := by
      rintro rfl
      exact absurd h (by decide)
    rw [if_neg hne, if_pos h]

theorem phoneClass_eq_plus (c : Char) : phoneClass c = .plus ↔ c = '+' := by
  unfold phoneClass
  constructor
  · intro h
    split_ifs at h with h1 h2
    exact h1
  · rintro rfl
    rfl

theorem map_phoneClass_eq_replicate (t : List Char) (k : Nat) :
    t.map phoneClass = List.replicate k .digit ↔
      t.length = k ∧ ∀ c ∈ t, c.isDigit = true := by
  rw [List.eq_replicate_iff]
  simp only [List.length_map, List.mem_map, forall_exists_index, and_imp,
    forall_apply_eq_imp_iff₂, phoneClass_eq_digit]

/-- C20: `isValidPhone(s)` is true exactly when `s` with every white space
character and every hyphen deleted is an optional single leading `+` followed
by between 10 and 15 decimal digits and nothing else; two strings that differ
only in white space and hyphens get the same result, so inserting a space or
a hyphen anywhere changes nothing. -/
theorem isValidPhone_iff (s : String) :
    (isValidPhone s = true ↔
      ∃ d : List Char,
        (stripSpacesAndHyphens s = d ∨ stripSpacesAndHyphens s = '+' :: d)
        ∧ 10 ≤ d.length ∧ d.length ≤ 15 ∧ ∀ c ∈ d, c.isDigit = true)
    ∧ (∀ t : String, stripSpacesAndHyphens t = stripSpacesAndHyphens s →
        isValidPhone t = isValidPhone s)
    ∧ (∀ a b : String, s = a ++ b →
        isValidPhone (a ++ " " ++ b) = isValidPhone s
        ∧ isValidPhone (a ++ "-" ++ b) = isValidPhone s) := by
  refine ⟨?_, ?_, ?_⟩
  · unfold isValidPhone
    rw [phoneRegex_rmatch]
    constructor
    · rintro ⟨k, h10, h15, hx | hx⟩
      · obtain ⟨hlen, hall⟩ := (map_phoneClass_eq_replicate _ k).mp hx
        exact ⟨_, Or.inl rfl, by omega, by omega, hall⟩
      · obtain ⟨c, d, hcd, hc, hd⟩ := List.map_eq_cons_iff.mp hx
        rw [phoneClass_eq_plus] at hc
        subst hc
        obtain ⟨hlen, hall⟩ := (map_phoneClass_eq_replicate _ k).mp hd
        exact ⟨d, Or.inr hcd, by omega, by omega, hall⟩
    · rintro ⟨d, hd | hd, h10, h15, hall⟩
      · refine ⟨d.length, h10, h15, Or.inl ?_⟩
        rw [hd]
        exact (map_phoneClass_eq_replicate d _).mpr ⟨rfl, hall⟩
      · refine ⟨d.length, h10, h15, Or.inr ?_⟩
        rw [hd, List.map_cons, (phoneClass_eq_plus '+').mpr rfl]
        exact congrArg _ ((map_phoneClass_eq_replicate d _).mpr ⟨rfl, hall⟩)
  · intro t ht
    unfold isValidPhone
    rw [ht]
  · rintro a b rfl
    have hstrip : ∀ sep : String, (∀ c ∈ sep.toList, (isWhiteSpace c || c == '-') = true) →
        stripSpacesAndHyphens (a ++ sep ++ b) = stripSpacesAndHyphens (a ++ b) := by
      intro sep hsep
      unfold stripSpacesAndHyphens
      have : List.filter (fun c => !(isWhiteSpace c || c == '-')) sep.toList = [] := by
        rw [List.filter_eq_nil_iff]
        intro c hc
        simp [hsep c hc]
      simp only [String.toList, String.data_append, List.filter_append]
      simp only [String.toList] at this
      rw [this, List.append_nil]
    constructor
    · unfold isValidPhone
      rw [hstrip " " (by decide)]
    · unfold isValidPhone
      rw [hstrip "-" (by decide)]

/-- Instance of C20: an Indian mobile number written with a country code, a
space and a hyphen. -/
theorem isValidPhone_iff_witness :
    isValidPhone "+91 98765-43210" = true
    ∧ isValidPhone "+919876543210" = isValidPhone "+91 98765-43210" :=
  ⟨by decide,
   (isValidPhone_iff "+91 98765-43210").2.1 "+919876543210" (by decide)⟩

/-- Instance of C19: a plain address is valid. -/
theorem isValidEmail_iff_witness : isValidEmail "coast.guard@example.org" = true :=
  (isValidEmail_iff "coast.guard@example.org").mpr
    ⟨by decide, "coast.guard".toList, "example.org".toList, by decide, by decide, by decide,
      by decide, "example".toList, "org".toList, by decide, by decide, by decide⟩

end MainJs

namespace ReportJs

/-- C21: `handleMediaSelection` keeps the staged list as the beginning of the
new one and appends files of the batch in batch order (the appended files are
a sublist of the batch); `removeMedia` leaves a sublist of the staged list, in
the same relative order, in which every entry of another name is still
present. -/
theorem staged_order_preserved (s : Page) (files : List File) (fileName : String) :
    (∃ appended : List File,
      (handleMediaSelection s files).selectedFiles = s.selectedFiles ++ appended
      ∧ appended.Sublist files)
    ∧ (removeMedia s fileName).selectedFiles.Sublist s.selectedFiles
    ∧ (∀ f ∈ s.selectedFiles, f.name ≠ fileName →
        f ∈ (removeMedia s fileName).selectedFiles)
    ∧ (∀ f ∈ (removeMedia s fileName).selectedFiles, f.name ≠ fileName) := by
  refine ⟨?_, ?_, ?_, ?_⟩
  · rw [handleMediaSelection_selectedFiles]
    split
    · exact ⟨[], by simp, List.nil_sublist _⟩
    · obtain ⟨appended, h1, h2, _⟩ := stageFiles_eq_append files s.selectedFiles
      exact ⟨appended, h1, h2⟩
  · rw [removeMedia_selectedFiles]
    exact List.filter_sublist _
  · intro f hf hne
    rw [removeMedia_selectedFiles]
    exact List.mem_filter.mpr ⟨hf, by simpa using hne⟩
  · intro f hf
    rw [removeMedia_selectedFiles] at hf
    simpa using (List.mem_filter.mp hf).2

/-- Instance of C21: removing `b.png` from four staged files, and adding one
image to them. -/
theorem staged_order_preserved_witness :
    (removeMedia fourStaged "b.png").selectedFiles
        = [png "a.png" 100, png "c.png" 300, png "d.png" 400]
    ∧ (handleMediaSelection fourStaged [png "e.png" 500]).selectedFiles
        = [png "a.png" 100, png "b.png" 200, png "c.png" 300, png "d.png" 400,
            png "e.png" 500] := by
  decide

/-! ### HTML escaping -/

theorem toList_replaceAll (s : String) (c : Char) (r : String) :
    (replaceAll s c r).toList = s.toList.flatMap (fun ch => if ch = c then r.toList else [ch]) :=
  rfl

/-- The five replacements in sequence amount to one pass that replaces each
character by `escapeChar`. -/
theorem escapeChain_toList (s : String) :
    (replaceAll (replaceAll (replaceAll (replaceAll (replaceAll s
      '&' "&amp;") '<' "&lt;") '>' "&gt;") '"' "&quot;") (Char.ofNat 39) "&#039;").toList
      = s.toList.flatMap escapeChar := by
  simp only [toList_replaceAll, List.flatMap_assoc]
  apply List.flatMap_congr
  intro c _
  unfold escapeChar
  by_cases h1 : c = '&'
  · subst h1; decide
  · by_cases h2 : c = '<'
    · subst h2; decide
    · by_cases h3 : c = '>'
      · subst h3; decide
      · by_cases h4 : c = '"'
        · subst h4; decide
        · by_cases h5 : c = Char.ofNat 39
          · subst h5; decide
          · simp [h1, h2, h3, h4, h5]

theorem escapeHtml_toList (env : Env) (value : JSVal) :
    (escapeHtml env value).toList
      = (match value with
         | .undefined => []
         | .null => []
         | v => (v.toStr env).toList.flatMap escapeChar) := by
  cases value <;> first | rfl | exact escapeChain_toList _

theorem escapeChar_clean (c ch : Char) (h : ch ∈ escapeChar c) :
    ch ≠ '<' ∧ ch ≠ '>' ∧ ch ≠ '"' ∧ ch ≠ Char.ofNat 39 := by
  unfold escapeChar at h
  split_ifs at h with h1 h2 h3 h4 h5
  · revert ch; decide
  · revert ch; decide
  · revert ch; decide
  · revert ch; decide
  · revert ch; decide
  · rw [List.mem_singleton] at h
    subst h
    exact ⟨h2, h3, h4, h5⟩

/-- An ampersand in the replacement of a character is the first character of
that replacement, which is then one of the five entities. -/
theorem escapeChar_ampersand (c : Char) (before after : List Char)
    (h : escapeChar c = before ++ '&' :: after) :
    before = [] ∧ escapeChar c ∈ htmlEntities := by
  unfold escapeChar at h ⊢
  have tail_free : ∀ (x : Char) (t : List Char), '&' ∉ t →
      x :: t = before ++ '&' :: after → before = [] := by
    intro x t ht heq
    cases before with
    | nil => rfl
    | cons b bs =>
      exfalso
      apply ht
      have := (List.cons.inj heq).2
      rw [this]
      simp
  split_ifs at h ⊢ with h1 h2 h3 h4 h5
  · exact ⟨tail_free _ _ (by decide) h, by decide⟩
  · exact ⟨tail_free _ _ (by decide) h, by decide⟩
  · exact ⟨tail_free _ _ (by decide) h, by decide⟩
  · exact ⟨tail_free _ _ (by decide) h, by decide⟩
  · exact ⟨tail_free _ _ (by decide) h, by decide⟩
  · exfalso
    cases before with
    | nil =>
      have := (List.cons.inj h).1
      exact h1 this
    | cons b bs =>
      have := (List.cons.inj h).2
      cases bs <;> cases this

theorem flatMap_escapeChar_ampersand (l : List Char) (before after : List Char)
    (h : l.flatMap escapeChar = before ++ '&' :: after) :
    ∃ e ∈ htmlEntities, ∃ rest : List Char, '&' :: after = e ++ rest := by
  induction l generalizing before with
  | nil => simp at h
  | cons c cs ih =>
    rw [List.flatMap_cons, List.append_eq_append_iff] at h
    rcases h with ⟨a1, _, h2⟩ | ⟨c1, h1, h2⟩
    · exact ih a1 h2
    · cases c1 with
      | nil =>
        simp only [List.nil_append] at h2
        exact ih [] h2.symm
      | cons x xs =>
        simp only [List.cons_append] at h2
        obtain ⟨hx, hrest⟩ := List.cons.inj h2
        subst hx
        obtain ⟨hb, hent⟩ := escapeChar_ampersand c before xs h1
        refine ⟨escapeChar c, hent, cs.flatMap escapeChar, ?_⟩
        rw [h1, hb, hrest]
        rfl

theorem escapeChar_append_inj (c1 c2 : Char) (r1 r2 : List Char)
    (h : escapeChar c1 ++ r1 = escapeChar c2 ++ r2) : c1 = c2 ∧ r1 = r2 := by
  have e1 : "&amp;".toList = ['&', 'a', 'm', 'p', ';'] := rfl
  have e2 : "&lt;".toList = ['&', 'l', 't', ';'] := rfl
  have e3 : "&gt;".toList = ['&', 'g', 't', ';'] := rfl
  have e4 : "&quot;".toList = ['&', 'q', 'u', 'o', 't', ';'] := rfl
  have e5 : "&#039;".toList = ['&', '#', '0', '3', '9', ';'] := rfl
  unfold escapeChar at h
  rw [e1, e2, e3, e4, e5] at h
  split_ifs at h with a1 a2 a3 a4 a5 a6 a7 a8 a9 <;> simp_all <;>
    exact absurd h.1.symm (by assumption)

theorem flatMap_escapeChar_injective (l1 l2 : List Char)
    (h : l1.flatMap escapeChar = l2.flatMap escapeChar) : l1 = l2 := by
  have hne : ∀ c, escapeChar c ≠ [] := by
    intro c
    unfold escapeChar
    split_ifs <;> simp
  induction l1 generalizing l2 with
  | nil =>
    cases l2 with
    | nil => rfl
    | cons c cs =>
      exfalso
      simp only [List.flatMap_nil, List.flatMap_cons] at h
      exact hne c (List.append_eq_nil.mp h.symm).1
  | cons c cs ih =>
    cases l2 with
    | nil =>
      exfalso
      simp only [List.flatMap_nil, List.flatMap_cons] at h
      exact hne c (List.append_eq_nil.mp h).1
    | cons d ds =>
      simp only [List.flatMap_cons] at h
      obtain ⟨hcd, hrest⟩ := escapeChar_append_inj c d _ _ h
      rw [hcd, ih ds hrest]

/-- C22: for every input the string `escapeHtml` returns holds none of the
characters `<`, `>`, the double quote and the apostrophe, and every `&` in it
is the first character of one of the five entities; `null` and `undefined`
give the empty string; on strings the function is injective, so the input can
be recovered from the output; the definition in `main.js` returns the same
string as the one in `report.js` for every input. -/
theorem escapeHtml_spec (env : Env) (value : JSVal) :
    (∀ ch ∈ (escapeHtml env value).toList,
      ch ≠ '<' ∧ ch ≠ '>' ∧ ch ≠ '"' ∧ ch ≠ Char.ofNat 39)
    ∧ (∀ before after : List Char, (escapeHtml env value).toList = before ++ '&' :: after →
        ∃ e ∈ htmlEntities, ∃ rest : List Char, '&' :: after = e ++ rest)
    ∧ escapeHtml env .null = ""
    ∧ escapeHtml env .undefined = ""
    ∧ (∀ a b : String, escapeHtml env (.str a) = escapeHtml env (.str b) → a = b)
    ∧ MainJs.escapeHtml env value = escapeHtml env value := by
  refine ⟨?_, ?_, rfl, rfl, ?_, ?_⟩
  · intro ch hch
    rw [escapeHtml_toList] at hch
    have key : ∀ t : String, ch ∈ t.toList.flatMap escapeChar →
        ch ≠ '<' ∧ ch ≠ '>' ∧ ch ≠ '"' ∧ ch ≠ Char.ofNat 39 := by
      intro t ht
      obtain ⟨c, _, hc⟩ := List.mem_flatMap.mp ht
      exact escapeChar_clean c ch hc
    cases value with
    | undefined => simp at hch
    | null => simp at hch
    | bool b => exact key _ hch
    | num n => exact key _ hch
    | str t => exact key _ hch
    | object t => exact key _ hch
  · intro before after h
    rw [escapeHtml_toList] at h
    cases value with
    | undefined => simp at h
    | null => simp at h
    | bool b => exact flatMap_escapeChar_ampersand _ before after h
    | num n => exact flatMap_escapeChar_ampersand _ before after h
    | str t => exact flatMap_escapeChar_ampersand _ before after h
    | object t => exact flatMap_escapeChar_ampersand _ before after h
  · intro a b h
    have ht := congrArg String.toList h
    rw [escapeHtml_toList, escapeHtml_toList] at ht
    exact String.ext (flatMap_escapeChar_injective _ _ ht)
  · cases value <;> rfl

/-- Instance of C22: a string holding the five special characters. -/
theorem escapeHtml_spec_witness :
    escapeHtml sampleEnv (.str "<a href=\"x\">R&D</a>")
      = "&lt;a href=&quot;x&quot;&gt;R&amp;D&lt;/a&gt;"
    ∧ ∀ ch ∈ (escapeHtml sampleEnv (.str "<a href=\"x\">R&D</a>")).toList, ch ≠ '<' :=
  ⟨by decide, fun ch hch => ((escapeHtml_spec sampleEnv _).1 ch hch).1⟩

/-! ### The success panel -/

theorem append_chain_infix (p x m a b c d : String) :
    ∃ before after : String,
      p ++ (((((x ++ m) ++ a) ++ b) ++ c) ++ d) = before ++ m ++ after :=
  ⟨p ++ x, a ++ b ++ c ++ d, by simp only [String.append_assoc]⟩

/-- A truthy `message` of the response body stands in the success markup as
it is. -/
theorem successPanel_message_raw (env : Env) (data : ResponseProps)
    (h : data.message.truthy = true) :
    ∃ before after : String,
      successPanel env data = before ++ data.message.toStr env ++ after := by
  have hor : data.message.or
      (.str "Your report has been received and will be processed by our team.")
      = data.message := by
    simp [JSVal.or, h]
  unfold successPanel successPanelTail
  rw [hor]
  exact append_chain_infix _ _ _ _ _ _ _

/-- C23 (the code at the failing input): for an OK response whose body has the
message `<img src=x onerror=alert(1)>`, the markup `handleFormSubmit` assigns
to the status panel holds that message as it is, with its `<`; passed through
`escapeHtml` it would read `&lt;img src=x onerror=alert(1)&gt;`. -/
theorem successPanel_message_unescaped :
    (handleFormSubmit sampleEnv clickedPage 1700000000000 okWithMarkup).statusDiv
      = [.markup (successPanel sampleEnv markupBody)]
    ∧ (∃ before after : String,
        successPanel sampleEnv markupBody
          = before ++ "<img src=x onerror=alert(1)>" ++ after)
    ∧ escapeHtml sampleEnv markupBody.message = "&lt;img src=x onerror=alert(1)&gt;" := by
  refine ⟨?_, successPanel_message_raw sampleEnv markupBody (by decide), by decide⟩
  simp only [handleFormSubmit,
    handleFormSubmitBegin_of_conditions sampleEnv clickedPage 1700000000000
      clickedPage_conditions]
  rfl

end ReportJs
